import Mathlib

/-!
Shallow embedding of the collision/physics core of a 2D side-scrolling game
(`src/collision.rs`, `src/entity.rs`).

Modelling conventions:
* Rust `i32` is modelled as `Int` and `usize` as `Nat` (all arithmetic in the
  embedded code is either guarded against underflow or far from the wrap
  boundary; the source would panic in debug mode on overflow rather than wrap).
* Rust `f32`/`f64` velocities are modelled as `Rat`.  The only floating-point
  operations the embedded code performs on them are `signum` composed with an
  `as i32` cast, addition of `1.0`, and assignment of the constants `0.0` and
  `-1.0`; on non-NaN inputs the sign of an exactly-rounded `f32` sum agrees
  with the sign of the exact rational sum, so this is faithful except for the
  distinction between `+0.0` and `-0.0`, which `Rat` conflates.
* Panicking operations (out-of-bounds indexing) are modelled by `Option`:
  `none` is a panic.
* Rust `Vec`s are Lean `List`s; `retain` is `List.filter`; in-place index
  assignment is `List.set`.
-/

/-- Modelled from the spec: the `Rect` type lives in `src/types.rs`, which is
not among the provided sources.  Per the spec (§3) a `Rect` is an integer
origin `(x, y)` plus unsigned width/height, and it is used by every collider
via fields `x y : i32` and `w h : unsigned` (the source always reads widths as
`r.w as i32`). -/
structure Rect where
  x : Int
  y : Int
  w : Nat
  h : Nat
deriving DecidableEq, Repr

/-- Modelled from the spec: `Vec2i` lives in the missing `src/types.rs`; it is
a pair of `i32` coordinates accessed as `.0` and `.1`. -/
abbrev Vec2i := Int × Int

/-- `ColliderID` from `src/collision.rs`: a tagged index referencing one of the
four pools by position. -/
inductive ColliderID where
  | Terrain (i : Nat)
  | Mobile (i : Nat)
  | Projectile (i : Nat)
  | Wall (i : Nat)
deriving DecidableEq, Repr

/-- `Contact` from `src/collision.rs`. -/
structure Contact where
  a : ColliderID
  b : ColliderID
  mtv : Int × Int
deriving DecidableEq, Repr

/-- `Terrain` collider from `src/collision.rs`. -/
structure Terrain where
  rect : Rect
  created_at : Nat
  destructible : Bool
  hp : Nat
deriving DecidableEq, Repr

/-- `Mobile` collider from `src/collision.rs`.  `vx`, `vy` are `f32` in the
source, modelled as `Rat`. -/
structure Mobile where
  rect : Rect
  vx : Rat
  vy : Rat
  hp : Nat
  is_player : Bool
deriving DecidableEq, Repr

/-- `Projectile` collider from `src/collision.rs`.  `vx`, `vy` are `f64` in
the source, modelled as `Rat`. -/
structure Projectile where
  rect : Rect
  vx : Rat
  vy : Rat
  hp : Nat
deriving DecidableEq, Repr

/-- `Wall` collider from `src/collision.rs`. -/
structure Wall where
  rect : Rect
deriving DecidableEq, Repr

/-- The `Collider` trait from `src/collision.rs`.  Every implementation in the
source moves / sets `self.rect.x`, `self.rect.y`. -/
class Collider (T : Type) where
  move_pos : T → Int → Int → T
  set_pos : T → Int → Int → T

instance terrainCollider : Collider Terrain where
  move_pos t dx dy := { t with rect := { t.rect with x := t.rect.x + dx, y := t.rect.y + dy } }
  set_pos t x y := { t with rect := { t.rect with x := x, y := y } }

instance mobileCollider : Collider Mobile where
  move_pos m dx dy := { m with rect := { m.rect with x := m.rect.x + dx, y := m.rect.y + dy } }
  set_pos m x y := { m with rect := { m.rect with x := x, y := y } }

instance projectileCollider : Collider Projectile where
  move_pos p dx dy := { p with rect := { p.rect with x := p.rect.x + dx, y := p.rect.y + dy } }
  set_pos p x y := { p with rect := { p.rect with x := x, y := y } }

instance wallCollider : Collider Wall where
  move_pos w dx dy := { w with rect := { w.rect with x := w.rect.x + dx, y := w.rect.y + dy } }
  set_pos w x y := { w with rect := { w.rect with x := x, y := y } }

/-- Modelled from the spec: the animation state machine referenced as
`sprite.animation_sm` by `src/collision.rs` is not among the provided sources
(`src/animation.rs` only holds frame data).  Per the spec (§6) a sprite
exposes a triggerable animation-event sink `trigger(event_name, current_tick)`
(called `input` in the source); we model it as the recorded list of fired
triggers. -/
structure AnimationSM where
  events : List (String × Nat)
deriving DecidableEq, Repr

/-- The event sink operation, `animation_sm.input(event, tick)` in the
source: records the trigger. -/
def AnimationSM.input (sm : AnimationSM) (event : String) (tick : Nat) : AnimationSM :=
  { sm with events := sm.events ++ [(event, tick)] }

/-- `Sprite` from `src/sprite.rs`, restricted to the state the embedded core
reads and writes: its `position` and its animation-event sink (the texture,
animation frames and start frame are never touched by the collision core). -/
structure Sprite where
  position : Vec2i
  animation_sm : AnimationSM
deriving DecidableEq, Repr

/-- `Entity<T>` from `src/entity.rs`. -/
structure Entity (T : Type) where
  sprite : Sprite
  position : Vec2i
  collider : T
deriving DecidableEq, Repr

/-- `Entity::move_pos` from `src/entity.rs`: moves `self.sprite.position` and
the collider (via the `Collider` trait), faithfully *not* touching
`self.position`. -/
def Entity.move_pos [Collider T] (e : Entity T) (dx dy : Int) : Entity T :=
  { e with
    sprite := { e.sprite with
      position := (e.sprite.position.1 + dx, e.sprite.position.2 + dy) }
    collider := Collider.move_pos e.collider dx dy }

/-- `Entity::align` from `src/entity.rs`: copies `self.position` into the
sprite position (component-wise, via conditional assignments that are
semantically unconditional) and into the collider via `set_pos`. -/
def Entity.align [Collider T] (e : Entity T) : Entity T :=
  let sx := if e.sprite.position.1 ≠ e.position.1 then e.position.1 else e.sprite.position.1
  let sy := if e.sprite.position.2 ≠ e.position.2 then e.position.2 else e.sprite.position.2
  { e with
    sprite := { e.sprite with position := (sx, sy) }
    collider := Collider.set_pos e.collider e.position.1 e.position.2 }

/-- `Entity::new` from `src/entity.rs`: builds the entity and aligns the three
positions once. -/
def Entity.new [Collider T] (sprite : Sprite) (position : Vec2i) (collider : T) : Entity T :=
  Entity.align { sprite := sprite, position := position, collider := collider }

/-- `separating_axis` from `src/collision.rs`.  The source `assert!`s
`ax1 ≤ ax2 ∧ bx1 ≤ bx2`; every call site passes `(x, x + w)` with `w : Nat`,
so the assertion always holds and is omitted from the model. -/
def separating_axis (ax1 ax2 bx1 bx2 : Int) : Bool :=
  ax2 ≤ bx1 || bx2 ≤ ax1

/-- The `x_overlap` local of `rect_displacement` in `src/collision.rs`. -/
def x_overlap (r1 r2 : Rect) : Int :=
  min (r1.x + (r1.w : Int)) (r2.x + (r2.w : Int)) - max r1.x r2.x

/-- The `y_overlap` local of `rect_displacement` in `src/collision.rs`. -/
def y_overlap (r1 r2 : Rect) : Int :=
  min (r1.y + (r1.h : Int)) (r2.y + (r2.h : Int)) - max r1.y r2.y

/-- `rect_displacement` from `src/collision.rs`. -/
def rect_displacement (r1 r2 : Rect) : Option (Int × Int) :=
  if x_overlap r1 r2 > 0 && y_overlap r1 r2 > 0 then
    if (x_overlap r1 r2).natAbs > (y_overlap r1 r2).natAbs then
      some (0, y_overlap r1 r2)
    else
      some (x_overlap r1 r2, 0)
  else
    none

/-- Rust `f32::signum()` composed with the `as i32` cast, on non-NaN input:
`-1` for negative values, `1` otherwise (`f32::signum(+0.0) = 1.0`). -/
def fsignum (x : Rat) : Int :=
  if x < 0 then -1 else 1

/-- The overlap condition tested by each sweep of `gather_contacts` in
`src/collision.rs`: two `separating_axis` calls, one per axis, both negated. -/
def rects_overlap (a b : Rect) : Bool :=
  !separating_axis a.x (a.x + (a.w : Int)) b.x (b.x + (b.w : Int)) &&
  !separating_axis a.y (a.y + (a.h : Int)) b.y (b.y + (b.h : Int))

/-- One rectangular index sweep of `gather_contacts`: the translation of
`for (ai, a) in as.iter().enumerate() { for (bi, b) in bs.iter().enumerate()
{ ... } }` where the body conditionally pushes one contact built by
`mk ai bi`. -/
def sweep_pairs (na nb : Nat) (mk : Nat → Nat → Option Contact) : List Contact :=
  (List.range na).flatMap fun ai => (List.range nb).filterMap fun bi => mk ai bi

/-- The upper-triangle index sweep of `gather_contacts`
(`.enumerate().skip(ai + 1)` on the inner iterator). -/
def sweep_pairs_upper (n : Nat) (mk : Nat → Nat → Option Contact) : List Contact :=
  (List.range n).flatMap fun ai =>
    (List.range' (ai + 1) (n - (ai + 1))).filterMap fun bi => mk ai bi

/-- The contact pushed by the mobile-vs-mobile sweep of `gather_contacts`
for indices `(ai, bi)`, when the rectangles overlap. -/
def mkMM (mobiles : List (Entity Mobile)) (ai bi : Nat) : Option Contact :=
  match mobiles[ai]?, mobiles[bi]? with
  | some a, some b =>
    if rects_overlap a.collider.rect b.collider.rect then
      some { a := ColliderID.Mobile ai, b := ColliderID.Mobile bi, mtv := (0, 0) }
    else none
  | _, _ => none

/-- The contact pushed by the mobile-vs-terrain sweep of `gather_contacts`. -/
def mkMT (mobiles : List (Entity Mobile)) (terrains : List (Entity Terrain))
    (ai bi : Nat) : Option Contact :=
  match mobiles[ai]?, terrains[bi]? with
  | some a, some b =>
    if rects_overlap a.collider.rect b.collider.rect then
      some { a := ColliderID.Mobile ai, b := ColliderID.Terrain bi, mtv := (0, 0) }
    else none
  | _, _ => none

/-- The contact pushed by the mobile-vs-wall sweep of `gather_contacts`; the
MTV is computed by `rect_displacement` with a `(0, 0)` fallback for `None`. -/
def mkMW (mobiles : List (Entity Mobile)) (walls : List Wall)
    (ai bi : Nat) : Option Contact :=
  match mobiles[ai]?, walls[bi]? with
  | some a, some b =>
    if rects_overlap a.collider.rect b.rect then
      some { a := ColliderID.Mobile ai, b := ColliderID.Wall bi,
             mtv := match rect_displacement a.collider.rect b.rect with
                    | some (x, y) => (x, y)
                    | none => (0, 0) }
    else none
  | _, _ => none

/-- The contact pushed by the projectile-vs-mobile sweep of
`gather_contacts`. -/
def mkPM (projs : List Projectile) (mobiles : List (Entity Mobile))
    (ai bi : Nat) : Option Contact :=
  match projs[ai]?, mobiles[bi]? with
  | some a, some b =>
    if rects_overlap a.rect b.collider.rect then
      some { a := ColliderID.Projectile ai, b := ColliderID.Mobile bi, mtv := (0, 0) }
    else none
  | _, _ => none

/-- The contact pushed by the projectile-vs-terrain sweep of
`gather_contacts`. -/
def mkPT (projs : List Projectile) (terrains : List (Entity Terrain))
    (ai bi : Nat) : Option Contact :=
  match projs[ai]?, terrains[bi]? with
  | some a, some b =>
    if rects_overlap a.rect b.collider.rect then
      some { a := ColliderID.Projectile ai, b := ColliderID.Terrain bi, mtv := (0, 0) }
    else none
  | _, _ => none

/-- The list of contacts appended (in order) by `gather_contacts` in
`src/collision.rs`: the five sweeps, in source order. -/
def gathered (terrains : List (Entity Terrain)) (mobiles : List (Entity Mobile))
    (walls : List Wall) (projs : List Projectile) : List Contact :=
  sweep_pairs_upper mobiles.length (mkMM mobiles) ++
  sweep_pairs mobiles.length terrains.length (mkMT mobiles terrains) ++
  sweep_pairs mobiles.length walls.length (mkMW mobiles walls) ++
  sweep_pairs projs.length mobiles.length (mkPM projs mobiles) ++
  sweep_pairs projs.length terrains.length (mkPT projs terrains)

/-- `gather_contacts` from `src/collision.rs`: appends the five sweeps to the
caller-supplied buffer `into`. -/
def gather_contacts (terrains : List (Entity Terrain)) (mobiles : List (Entity Mobile))
    (walls : List Wall) (projs : List Projectile) (into : List Contact) : List Contact :=
  into ++ gathered terrains mobiles walls projs

/-- The sort key of `restitute` in `src/collision.rs`:
`-(c.mtv.0 * c.mtv.0 + c.mtv.1 * c.mtv.1)`. -/
def sort_key (c : Contact) : Int :=
  -(c.mtv.1 * c.mtv.1 + c.mtv.2 * c.mtv.2)

/-- The in-place `sort_unstable_by_key` of `restitute`, modelled by
insertion sort with the same key (the source sort is unstable, so the order
of contacts with equal keys is unspecified there; any order sorted by the
key is a faithful refinement). -/
def sortContacts (contacts : List Contact) : List Contact :=
  List.insertionSort (fun c1 c2 => sort_key c1 ≤ sort_key c2) contacts

/-- The mutation the Mobile-vs-Wall arm of `restitute` applies to
`dynamics[ai]` in `src/collision.rs`: `move_pos` by the signed MTV, then zero
`vx` if the MTV had a nonzero x component and reset `vy` to `-1.0` if it had
a nonzero y component. -/
def wallBounce (e : Entity Mobile) (mtv : Int × Int) : Entity Mobile :=
  let moved := e.move_pos (-mtv.1 * fsignum e.collider.vx)
                          (-mtv.2 * fsignum (e.collider.vy + 1))
  let moved := if mtv.1 ≠ 0 then
      { moved with collider := { moved.collider with vx := 0 } } else moved
  if mtv.2 ≠ 0 then
    { moved with collider := { moved.collider with vy := -1 } } else moved

/-- The body of the per-contact loop of `restitute` in `src/collision.rs`.
`none` models the panic of `dynamics[ai]` on an out-of-bounds index.  Only
Mobile-vs-Wall contacts have any effect; the Mobile-vs-Mobile arm is
commented out in the source. -/
def restituteStep (dynamics : List (Entity Mobile)) (contact : Contact) :
    Option (List (Entity Mobile)) :=
  match contact.a, contact.b with
  | ColliderID.Mobile ai, ColliderID.Wall _ =>
    match dynamics[ai]? with
    | none => none
    | some e => some (dynamics.set ai (wallBounce e contact.mtv))
  | _, _ => some dynamics

/-- `restitute` from `src/collision.rs`: sorts the contact list by descending
squared MTV magnitude, then applies the wall corrections in that order.  The
sorted list is returned alongside the mobiles to model the in-place mutation
of the `contacts` argument. -/
def restitute (_statics : List (Entity Terrain)) (dynamics : List (Entity Mobile))
    (contacts : List Contact) : Option (List (Entity Mobile) × List Contact) :=
  match (sortContacts contacts).foldlM restituteStep dynamics with
  | some d => some (d, sortContacts contacts)
  | none => none

/-- The three pools mutated by the damage loop of `handle_contact`. -/
structure Pools where
  terrains : List (Entity Terrain)
  mobiles : List (Entity Mobile)
  projs : List Projectile
deriving DecidableEq, Repr

/-- The body of the damage loop of `handle_contact` in `src/collision.rs`,
for one contact.  `none` models a panic on an out-of-bounds pool index; reads
that in the source happen after a write to a possibly-aliasing index re-read
the updated pool. -/
def damageStep (pools : Pools) (contact : Contact) : Option Pools :=
  match contact.a, contact.b with
  | ColliderID.Mobile a, ColliderID.Terrain _ =>
    match pools.mobiles[a]? with
    | none => none
    | some ma =>
      if ma.collider.is_player then
        some { pools with
          mobiles := pools.mobiles.set a
            { ma with collider := { ma.collider with hp := 0 } } }
      else
        some pools
  | ColliderID.Mobile a, ColliderID.Mobile b =>
    match pools.mobiles[a]?, pools.mobiles[b]? with
    | some ma, some mb =>
      if ma.collider.is_player || mb.collider.is_player then
        if ma.collider.hp > mb.collider.hp then
          let mobiles1 := pools.mobiles.set b
            { mb with collider := { mb.collider with hp := 0 } }
          match mobiles1[a]? with
          | none => none
          | some ma1 =>
            some { pools with
              mobiles := mobiles1.set a
                { ma1 with collider := { ma1.collider with
                  hp := if ma1.collider.hp ≥ 30 then ma1.collider.hp - 30 else 0 } } }
        else
          let mobiles1 := pools.mobiles.set a
            { ma with collider := { ma.collider with hp := 0 } }
          match mobiles1[b]? with
          | none => none
          | some mb1 =>
            some { pools with
              mobiles := mobiles1.set b
                { mb1 with collider := { mb1.collider with
                  hp := if mb1.collider.hp ≥ 30 then mb1.collider.hp - 30 else 0 } } }
      else
        some pools
    | _, _ => none
  | ColliderID.Projectile a, ColliderID.Terrain b =>
    match pools.terrains[b]? with
    | none => none
    | some tb =>
      let step1 : Option (List (Entity Terrain)) :=
        if tb.collider.destructible then
          match pools.projs[a]? with
          | none => none
          | some pa =>
            some (pools.terrains.set b
              { tb with
                collider := { tb.collider with
                  hp := if tb.collider.hp ≥ pa.hp then tb.collider.hp - pa.hp else 0 }
                sprite := { tb.sprite with
                  animation_sm := tb.sprite.animation_sm.input "hit" 0 } })
        else
          some pools.terrains
      match step1 with
      | none => none
      | some terrains1 =>
        match pools.projs[a]? with
        | none => none
        | some pa =>
          some { pools with
            terrains := terrains1
            projs := pools.projs.set a { pa with hp := 0 } }
  | ColliderID.Projectile a, ColliderID.Mobile b =>
    match pools.mobiles[b]? with
    | none => none
    | some mb =>
      match pools.projs[a]? with
      | none => none
      | some pa =>
        let mobiles1 := pools.mobiles.set b
          { mb with collider := { mb.collider with
            hp := if mb.collider.hp ≥ pa.hp then mb.collider.hp - pa.hp else 0 } }
        some { pools with
          mobiles := mobiles1
          projs := pools.projs.set a { pa with hp := 0 } }
  | _, _ => some pools

/-- The restitution pass followed by the damage loop of `handle_contact`,
before the pruning and return-value computation.  Returns the mutated pools
together with the (sorted, in-place mutated) contact list. -/
def damagePhase (terrains : List (Entity Terrain)) (mobiles : List (Entity Mobile))
    (projs : List Projectile) (contacts : List Contact) :
    Option (Pools × List Contact) :=
  match restitute terrains mobiles contacts with
  | none => none
  | some (mobiles1, sorted) =>
    match sorted.foldlM damageStep { terrains := terrains, mobiles := mobiles1, projs := projs } with
    | none => none
    | some pools => some (pools, sorted)

/-- The outputs of `handle_contact`: the three mutated pools, the mutated
contact list, and the returned `(player_is_alive, enemies_removed)` pair. -/
structure TickOutput where
  terrains : List (Entity Terrain)
  mobiles : List (Entity Mobile)
  projs : List Projectile
  contacts : List Contact
  player_is_alive : Bool
  enemies_removed : Nat
deriving DecidableEq, Repr

/-- `handle_contact` from `src/collision.rs` (`resolve_and_prune` in the
spec): restitute, apply per-contact damage, read `mobiles[0]` for the alive
flag (a panic — `none` — on an empty pool), then prune the three pools,
measuring the mobile pool length around its retain step. -/
def handle_contact (terrains : List (Entity Terrain)) (mobiles : List (Entity Mobile))
    (projs : List Projectile) (contacts : List Contact) : Option TickOutput :=
  match damagePhase terrains mobiles projs contacts with
  | none => none
  | some (pools, sorted) =>
    match pools.mobiles[0]? with
    | none => none
    | some m0 =>
      let player_is_alive := m0.collider.hp != 0
      let terrains2 := pools.terrains.filter fun terrain => terrain.collider.hp > 0
      let ori := pools.mobiles.length
      let mobiles2 := pools.mobiles.filter fun mobile =>
        mobile.collider.hp > 0 || mobile.collider.is_player
      let new := mobiles2.length
      let projs2 := pools.projs.filter fun proj => proj.hp > 0
      some { terrains := terrains2, mobiles := mobiles2, projs := projs2,
             contacts := sorted, player_is_alive := player_is_alive,
             enemies_removed := ori - new }

/-! ## Theorems -/

/-- A concrete aligned entity used to exhibit the `Entity::move_pos`
desynchronization: the player mobile at logical position `(3, 4)`. -/
def c1_entity : Entity Mobile :=
  Entity.new { position := (5, 6), animation_sm := { events := [] } } (3, 4)
    { rect := { x := 0, y := 0, w := 36, h := 25 }, vx := 0, vy := 0, hp := 100,
      is_player := true }

/-- C1: the claim says that after `move_pos(dx, dy)` on an entity whose three
positions were equal, the logical position, the sprite position and the
collider origin are again all equal.  The code violates this: `move_pos`
moves the sprite position and the collider but never updates
`self.position`.  At the concrete aligned entity `c1_entity` (all three
positions `(3, 4)` after construction), `move_pos(1, 2)` leaves the logical
position at `(3, 4)` while sprite and collider move to `(4, 6)`. -/
theorem c1_move_pos_desynchronizes :
    (c1_entity.position = (3, 4) ∧ c1_entity.sprite.position = (3, 4) ∧
      c1_entity.collider.rect.x = 3 ∧ c1_entity.collider.rect.y = 4) ∧
    ((c1_entity.move_pos 1 2).sprite.position = (4, 6) ∧
      (c1_entity.move_pos 1 2).collider.rect.x = 4 ∧
      (c1_entity.move_pos 1 2).collider.rect.y = 6 ∧
      (c1_entity.move_pos 1 2).position = (3, 4)) ∧
    (c1_entity.move_pos 1 2).position ≠ (c1_entity.move_pos 1 2).sprite.position := by
  decide

/-- A degenerate (zero-extent) rectangle strictly inside `c8_wide`: the
`separating_axis` overlap test reports overlap on both axes, yet
`rect_displacement` returns `none` because the overlap extent is zero. -/
def c8_degenerate : Rect := { x := 5, y := 5, w := 0, h := 0 }

/-- The 10-by-10 rectangle at the origin. -/
def c8_wide : Rect := { x := 0, y := 0, w := 10, h := 10 }

/-- C8, counterexample: the claim says `rect_displacement` returns `None` if
and only if the rectangles do not overlap on both axes, where overlapping is
the `separating_axis` test of the contact generator (spec section 4.1: two
rectangles overlap iff neither axis is separating).  For the degenerate
zero-extent rectangle `c8_degenerate` strictly inside `c8_wide`, neither
axis is separating, yet `rect_displacement` returns `none`. -/
theorem c8_rect_displacement_counterexample :
    separating_axis c8_degenerate.x (c8_degenerate.x + (c8_degenerate.w : Int))
      c8_wide.x (c8_wide.x + (c8_wide.w : Int)) = false ∧
    separating_axis c8_degenerate.y (c8_degenerate.y + (c8_degenerate.h : Int))
      c8_wide.y (c8_wide.y + (c8_wide.h : Int)) = false ∧
    rect_displacement c8_degenerate c8_wide = none := by
  decide

/-- C8, amended: for rectangles of positive width and height (every rectangle
the game constructs; only zero-extent rectangles violate the original claim),
`rect_displacement` returns `none` iff the rectangles do not overlap on both
axes (in the sense of the `separating_axis` test used by the contact
generator); when it returns a vector, that vector has exactly one nonzero
component, and it is `(0, y_overlap)` when the x-overlap magnitude exceeds
the y-overlap magnitude and `(x_overlap, 0)` otherwise. -/
theorem c8_rect_displacement_spec (r1 r2 : Rect)
    (hw1 : 0 < r1.w) (hh1 : 0 < r1.h) (hw2 : 0 < r2.w) (hh2 : 0 < r2.h) :
    (rect_displacement r1 r2 = none ↔
      (separating_axis r1.x (r1.x + (r1.w : Int)) r2.x (r2.x + (r2.w : Int)) = true ∨
       separating_axis r1.y (r1.y + (r1.h : Int)) r2.y (r2.y + (r2.h : Int)) = true)) ∧
    (∀ d, rect_displacement r1 r2 = some d →
      (d.1 = 0 ∧ d.2 ≠ 0) ∨ (d.1 ≠ 0 ∧ d.2 = 0)) ∧
    (∀ d, rect_displacement r1 r2 = some d →
      d = if (x_overlap r1 r2).natAbs > (y_overlap r1 r2).natAbs
          then (0, y_overlap r1 r2) else (x_overlap r1 r2, 0)) := by
  have hxiff : separating_axis r1.x (r1.x + (r1.w : Int)) r2.x (r2.x + (r2.w : Int)) = true ↔
      ¬(0 < x_overlap r1 r2) := by
    simp only [separating_axis, x_overlap, Bool.or_eq_true, decide_eq_true_eq, sub_pos,
      lt_min_iff, max_lt_iff]
    omega
  have hyiff : separating_axis r1.y (r1.y + (r1.h : Int)) r2.y (r2.y + (r2.h : Int)) = true ↔
      ¬(0 < y_overlap r1 r2) := by
    simp only [separating_axis, y_overlap, Bool.or_eq_true, decide_eq_true_eq, sub_pos,
      lt_min_iff, max_lt_iff]
    omega
  have hnone : rect_displacement r1 r2 = none ↔
      ¬(0 < x_overlap r1 r2 ∧ 0 < y_overlap r1 r2) := by
    unfold rect_displacement
    by_cases h1 : 0 < x_overlap r1 r2 <;> by_cases h2 : 0 < y_overlap r1 r2 <;>
      simp [h1, h2] <;> split <;> simp
  refine ⟨?_, ?_, ?_⟩
  · rw [hnone, hxiff, hyiff]
    tauto
  · intro d hd
    unfold rect_displacement at hd
    split at hd
    case isTrue hpos =>
      rw [Bool.and_eq_true, decide_eq_true_eq, decide_eq_true_eq] at hpos
      split at hd
      case isTrue hcmp =>
        cases hd
        left
        refine ⟨rfl, ?_⟩
        show y_overlap r1 r2 ≠ 0
        omega
      case isFalse hcmp =>
        cases hd
        right
        refine ⟨?_, rfl⟩
        show x_overlap r1 r2 ≠ 0
        omega
    case isFalse => exact Option.noConfusion hd
  · intro d hd
    unfold rect_displacement at hd
    split at hd
    case isTrue hpos =>
      split at hd
      case isTrue hcmp =>
        cases hd
        rw [if_pos hcmp]
      case isFalse hcmp =>
        cases hd
        rw [if_neg hcmp]
    case isFalse => exact Option.noConfusion hd

/-- Witness for `c8_rect_displacement_spec` at the concrete positive-extent
rectangle `c8_wide` against itself. -/
theorem c8_rect_displacement_spec_witness :
    rect_displacement c8_wide c8_wide = none ↔
      (separating_axis c8_wide.x (c8_wide.x + (c8_wide.w : Int)) c8_wide.x
        (c8_wide.x + (c8_wide.w : Int)) = true ∨
       separating_axis c8_wide.y (c8_wide.y + (c8_wide.h : Int)) c8_wide.y
        (c8_wide.y + (c8_wide.h : Int)) = true) :=
  (c8_rect_displacement_spec c8_wide c8_wide (by decide) (by decide) (by decide)
    (by decide)).1

/-- C5: per-contact restitution effect.  For a Mobile-vs-Wall contact whose
mobile index is in bounds, the mobile entity is moved (sprite position and
collider rectangle alike) by `(-mtv.x * sign(vx), -mtv.y * sign(vy + 1))`
computed from its pre-update velocities; its `vx` is zeroed iff `mtv.x` is
nonzero and its `vy` is set to exactly `-1` iff `mtv.y` is nonzero; hp and
player flag are untouched, and every other mobile is untouched.  For any
contact that is not Mobile-vs-Wall, the pool is returned entirely
unchanged. -/
theorem c5_restitution_per_contact (dynamics : List (Entity Mobile)) (c : Contact) :
    (∀ ai wi e, c.a = ColliderID.Mobile ai → c.b = ColliderID.Wall wi →
      dynamics[ai]? = some e →
      ∃ e', restituteStep dynamics c = some (dynamics.set ai e') ∧
        e'.collider.rect.x = e.collider.rect.x + -c.mtv.1 * fsignum e.collider.vx ∧
        e'.collider.rect.y = e.collider.rect.y + -c.mtv.2 * fsignum (e.collider.vy + 1) ∧
        e'.sprite.position.1 = e.sprite.position.1 + -c.mtv.1 * fsignum e.collider.vx ∧
        e'.sprite.position.2 = e.sprite.position.2 + -c.mtv.2 * fsignum (e.collider.vy + 1) ∧
        e'.collider.vx = (if c.mtv.1 ≠ 0 then 0 else e.collider.vx) ∧
        e'.collider.vy = (if c.mtv.2 ≠ 0 then -1 else e.collider.vy) ∧
        e'.collider.hp = e.collider.hp ∧
        e'.collider.is_player = e.collider.is_player ∧
        e'.collider.rect.w = e.collider.rect.w ∧
        e'.collider.rect.h = e.collider.rect.h) ∧
    ((∀ ai wi, ¬(c.a = ColliderID.Mobile ai ∧ c.b = ColliderID.Wall wi)) →
      restituteStep dynamics c = some dynamics) := by
  constructor
  · intro ai wi e ha hb he
    refine ⟨wallBounce e c.mtv, ?_, ?_⟩
    · unfold restituteStep
      rw [ha, hb]
      simp only [he]
    · unfold wallBounce Entity.move_pos
      by_cases h1 : c.mtv.1 = 0 <;> by_cases h2 : c.mtv.2 = 0 <;>
        simp [h1, h2, mobileCollider, Collider.move_pos]
  · intro hnot
    unfold restituteStep
    rcases c with ⟨ca, cb, mtv⟩
    rcases ca <;> rcases cb <;> simp_all

/-- A concrete mobile entity moving right (`vx = 2`) used as witness data. -/
def c5_mobile : Entity Mobile :=
  { sprite := { position := (0, 0), animation_sm := { events := [] } },
    position := (0, 0),
    collider := { rect := { x := 0, y := 0, w := 10, h := 10 }, vx := 2, vy := 0,
                  hp := 100, is_player := true } }

/-- A Mobile-vs-Wall contact with MTV `(2, 0)`. -/
def c5_contact : Contact := { a := ColliderID.Mobile 0, b := ColliderID.Wall 0, mtv := (2, 0) }

/-- A Mobile-vs-Mobile contact, to exercise the no-restitution arm. -/
def c5_contact_mm : Contact :=
  { a := ColliderID.Mobile 0, b := ColliderID.Mobile 1, mtv := (0, 0) }

/-- Witness for `c5_restitution_per_contact`: the wall contact pushes the
rightward-moving mobile left by the MTV and zeroes `vx`; the mobile-mobile
contact leaves the pool untouched. -/
theorem c5_restitution_per_contact_witness :
    (∃ e', restituteStep [c5_mobile] c5_contact = some ([c5_mobile].set 0 e') ∧
      e'.collider.rect.x = -2 ∧ e'.collider.vx = 0) ∧
    restituteStep [c5_mobile] c5_contact_mm = some [c5_mobile] := by
  constructor
  · obtain ⟨e', hstep, hx, _, _, _, hvx, _⟩ :=
      (c5_restitution_per_contact [c5_mobile] c5_contact).1 0 0 c5_mobile rfl rfl rfl
    refine ⟨e', hstep, ?_, ?_⟩
    · rw [hx]; decide
    · rw [hvx]; decide
  · apply (c5_restitution_per_contact [c5_mobile] c5_contact_mm).2
    intro ai wi hcon
    simp [c5_contact_mm] at hcon

/-- C6: `restitute` first sorts the contact list with key
`-(mtv.x^2 + mtv.y^2)` — i.e. into a permutation of the input that is in
descending order of squared MTV magnitude — and then folds the per-contact
corrections over exactly that sorted list, so larger-MTV wall contacts are
applied first.  (The source uses `sort_unstable_by_key`; the order among
equal keys is unspecified there, and the model fixes one such order.) -/
theorem c6_restitute_sorts (contacts : List Contact) :
    (sortContacts contacts).Perm contacts ∧
    List.Pairwise (fun c1 c2 =>
      c2.mtv.1 * c2.mtv.1 + c2.mtv.2 * c2.mtv.2 ≤
      c1.mtv.1 * c1.mtv.1 + c1.mtv.2 * c1.mtv.2) (sortContacts contacts) ∧
    (∀ statics dynamics out, restitute statics dynamics contacts = some out →
      out.2 = sortContacts contacts ∧
      (sortContacts contacts).foldlM restituteStep dynamics = some out.1) := by
  haveI hto : IsTotal Contact (fun c1 c2 => sort_key c1 ≤ sort_key c2) :=
    ⟨fun a b => le_total (sort_key a) (sort_key b)⟩
  haveI htr : IsTrans Contact (fun c1 c2 => sort_key c1 ≤ sort_key c2) :=
    ⟨fun _ _ _ h1 h2 => le_trans h1 h2⟩
  refine ⟨List.perm_insertionSort _ contacts, ?_, ?_⟩
  · have hs : List.Pairwise (fun c1 c2 => sort_key c1 ≤ sort_key c2) (sortContacts contacts) :=
      List.sorted_insertionSort _ contacts
    refine hs.imp ?_
    intro a b h
    simp only [sort_key] at h
    omega
  · intro statics dynamics out h
    unfold restitute at h
    split at h
    case h_1 d hd => cases h; exact ⟨rfl, hd⟩
    case h_2 => exact Option.noConfusion h

/-- A low-magnitude contact (squared MTV magnitude 1). -/
def c6_small : Contact := { a := ColliderID.Mobile 0, b := ColliderID.Mobile 1, mtv := (1, 0) }

/-- A high-magnitude contact (squared MTV magnitude 9). -/
def c6_big : Contact := { a := ColliderID.Mobile 0, b := ColliderID.Mobile 1, mtv := (3, 0) }

/-- Witness for `c6_restitute_sorts`: on `[c6_small, c6_big]` the resolver
reorders the larger correction first. -/
theorem c6_restitute_sorts_witness :
    (([] : List (Entity Mobile)), [c6_big, c6_small]).2 = sortContacts [c6_small, c6_big] ∧
    sortContacts [c6_small, c6_big] = [c6_big, c6_small] := by
  constructor
  · exact ((c6_restitute_sorts [c6_small, c6_big]).2.2 [] [] ([], [c6_big, c6_small])
      (by decide)).1
  · decide

/-- Closed-form result of the Mobile-vs-Terrain damage arm. -/
theorem damageStep_MT_eq (pools : Pools) (a bt : Nat) (mtv : Int × Int)
    (ma : Entity Mobile) (hma : pools.mobiles[a]? = some ma) :
    damageStep pools { a := ColliderID.Mobile a, b := ColliderID.Terrain bt, mtv := mtv } =
      some { pools with
        mobiles := if ma.collider.is_player then
            pools.mobiles.set a { ma with collider := { ma.collider with hp := 0 } }
          else pools.mobiles } := by
  unfold damageStep
  simp only [hma]
  by_cases hpl : ma.collider.is_player <;> simp [hpl]

/-- Closed-form result of the Mobile-vs-Mobile damage arm for distinct
indices. -/
theorem damageStep_MM_eq (pools : Pools) (a b : Nat) (mtv : Int × Int)
    (ma mb : Entity Mobile) (hab : a ≠ b)
    (hma : pools.mobiles[a]? = some ma) (hmb : pools.mobiles[b]? = some mb) :
    damageStep pools { a := ColliderID.Mobile a, b := ColliderID.Mobile b, mtv := mtv } =
      some { pools with
        mobiles :=
          if ma.collider.is_player || mb.collider.is_player then
            if ma.collider.hp > mb.collider.hp then
              (pools.mobiles.set b { mb with collider := { mb.collider with hp := 0 } }).set a
                { ma with collider := { ma.collider with
                  hp := if ma.collider.hp ≥ 30 then ma.collider.hp - 30 else 0 } }
            else
              (pools.mobiles.set a { ma with collider := { ma.collider with hp := 0 } }).set b
                { mb with collider := { mb.collider with
                  hp := if mb.collider.hp ≥ 30 then mb.collider.hp - 30 else 0 } }
          else pools.mobiles } := by
  unfold damageStep
  simp only [hma, hmb]
  by_cases hpl : (ma.collider.is_player || mb.collider.is_player) = true
  · rw [if_pos hpl, if_pos hpl]
    by_cases hgt : ma.collider.hp > mb.collider.hp
    · rw [if_pos hgt, if_pos hgt]
      have hre : (pools.mobiles.set b
          { mb with collider := { mb.collider with hp := 0 } })[a]? = some ma := by
        rw [List.getElem?_set_ne (Ne.symm hab)]
        exact hma
      simp only [hre]
    · rw [if_neg hgt, if_neg hgt]
      have hre : (pools.mobiles.set a
          { ma with collider := { ma.collider with hp := 0 } })[b]? = some mb := by
        rw [List.getElem?_set_ne hab]
        exact hmb
      simp only [hre]
  · rw [if_neg hpl, if_neg hpl]

/-- Closed-form result of the Projectile-vs-Terrain damage arm. -/
theorem damageStep_PT_eq (pools : Pools) (a b : Nat) (mtv : Int × Int)
    (tb : Entity Terrain) (pa : Projectile)
    (ht : pools.terrains[b]? = some tb) (hpa : pools.projs[a]? = some pa) :
    damageStep pools { a := ColliderID.Projectile a, b := ColliderID.Terrain b, mtv := mtv } =
      some { pools with
        terrains := if tb.collider.destructible then
            pools.terrains.set b { tb with
              collider := { tb.collider with
                hp := if tb.collider.hp ≥ pa.hp then tb.collider.hp - pa.hp else 0 }
              sprite := { tb.sprite with
                animation_sm := tb.sprite.animation_sm.input "hit" 0 } }
          else pools.terrains
        projs := pools.projs.set a { pa with hp := 0 } } := by
  unfold damageStep
  simp only [ht, hpa]
  by_cases hd : tb.collider.destructible <;> simp [hd]

/-- Closed-form result of the Projectile-vs-Mobile damage arm. -/
theorem damageStep_PM_eq (pools : Pools) (a b : Nat) (mtv : Int × Int)
    (mb : Entity Mobile) (pa : Projectile)
    (hmb : pools.mobiles[b]? = some mb) (hpa : pools.projs[a]? = some pa) :
    damageStep pools { a := ColliderID.Projectile a, b := ColliderID.Mobile b, mtv := mtv } =
      some { pools with
        mobiles := pools.mobiles.set b { mb with
          collider := { mb.collider with
            hp := if mb.collider.hp ≥ pa.hp then mb.collider.hp - pa.hp else 0 } }
        projs := pools.projs.set a { pa with hp := 0 } } := by
  unfold damageStep
  simp only [hmb, hpa]

/-- A non-destructible terrain with 40 hp and no fired triggers. -/
def c3_terrain : Entity Terrain :=
  { sprite := { position := (0, 0), animation_sm := { events := [] } },
    position := (0, 0),
    collider := { rect := { x := 0, y := 0, w := 10, h := 10 }, created_at := 0,
                  destructible := false, hp := 40 } }

/-- A projectile carrying a damage payload of 10. -/
def c3_proj : Projectile :=
  { rect := { x := 0, y := 0, w := 5, h := 5 }, vx := 0, vy := 0, hp := 10 }

/-- The pools for the C3 counterexample. -/
def c3_pools : Pools := { terrains := [c3_terrain], mobiles := [], projs := [c3_proj] }

/-- The Projectile-vs-Terrain contact for the C3 counterexample. -/
def c3_contact : Contact :=
  { a := ColliderID.Projectile 0, b := ColliderID.Terrain 0, mtv := (0, 0) }

/-- C3, counterexample: the claim says a "hit" animation trigger is fired on
the terrain's sprite regardless of whether the terrain is destructible.  In
the code the `input("hit", 0)` call sits inside the `if destructible` block:
processing a Projectile-vs-Terrain contact against the non-destructible
`c3_terrain` leaves its trigger list empty (no "hit" fired), although the
projectile is still consumed. -/
theorem c3_hit_trigger_counterexample :
    c3_terrain.collider.destructible = false ∧
    (damageStep c3_pools c3_contact).map
      (fun p => p.terrains.map fun t => t.sprite.animation_sm.events) = some [[]] ∧
    (damageStep c3_pools c3_contact).map (fun p => p.projs.map fun pr => pr.hp) =
      some [0] := by
  decide

/-- C3, amended: for every Projectile-vs-Terrain contact processed by the
rule resolver (both indices in bounds): if the terrain is destructible its hp
is decreased by the projectile's hp floored at 0 and a "hit" animation
trigger is fired on the terrain's sprite; if the terrain is not destructible
the terrain pool is entirely unchanged (in particular no trigger is fired);
and the projectile's hp is set to 0 (consumed) in all cases. -/
theorem c3_projectile_terrain_amended (pools : Pools) (a b : Nat) (mtv : Int × Int)
    (tb : Entity Terrain) (pa : Projectile)
    (ht : pools.terrains[b]? = some tb) (hpa : pools.projs[a]? = some pa) :
    ∃ res, damageStep pools
        { a := ColliderID.Projectile a, b := ColliderID.Terrain b, mtv := mtv } = some res ∧
      res.mobiles = pools.mobiles ∧
      (∀ i, i ≠ a → res.projs[i]? = pools.projs[i]?) ∧
      (∃ pa', res.projs[a]? = some pa' ∧ pa'.hp = 0 ∧ pa'.rect = pa.rect) ∧
      (tb.collider.destructible = true →
        ∃ tb', res.terrains[b]? = some tb' ∧
          tb'.collider.hp = tb.collider.hp - pa.hp ∧
          tb'.sprite.animation_sm.events =
            tb.sprite.animation_sm.events ++ [("hit", 0)] ∧
          tb'.collider.destructible = tb.collider.destructible ∧
          tb'.collider.rect = tb.collider.rect ∧
          (∀ i, i ≠ b → res.terrains[i]? = pools.terrains[i]?)) ∧
      (tb.collider.destructible = false → res.terrains = pools.terrains) := by
  have hlt : a < pools.projs.length := (List.getElem?_eq_some.mp hpa).1
  have hltb : b < pools.terrains.length := (List.getElem?_eq_some.mp ht).1
  rw [damageStep_PT_eq pools a b mtv tb pa ht hpa]
  refine ⟨_, rfl, rfl, ?_, ?_, ?_, ?_⟩
  · intro i hi
    exact List.getElem?_set_ne (Ne.symm hi)
  · exact ⟨_, List.getElem?_set_self hlt, rfl, rfl⟩
  · intro hd
    rw [if_pos (by rw [hd])]
    refine ⟨_, List.getElem?_set_self hltb, ?_, rfl, rfl, rfl, ?_⟩
    · simp only
      split <;> omega
    · intro i hi
      exact List.getElem?_set_ne (Ne.symm hi)
  · intro hd
    rw [if_neg (by rw [hd]; exact Bool.false_ne_true)]

/-- Witness for `c3_projectile_terrain_amended` at a destructible terrain
with 40 hp hit by a 10-damage projectile. -/
def c3_terrain_d : Entity Terrain :=
  { c3_terrain with collider := { c3_terrain.collider with destructible := true } }

/-- The pools for the C3 witness. -/
def c3_pools_d : Pools := { terrains := [c3_terrain_d], mobiles := [], projs := [c3_proj] }

/-- Witness for `c3_projectile_terrain_amended`: on the destructible variant
the hp drops 40 to 30, one "hit" trigger is recorded, and the projectile is
consumed. -/
theorem c3_projectile_terrain_amended_witness :
    (damageStep c3_pools_d c3_contact).map
        (fun p => p.terrains.map fun t => (t.collider.hp, t.sprite.animation_sm.events)) =
      some [(30, [("hit", 0)])] ∧
    (damageStep c3_pools_d c3_contact).map (fun p => p.projs.map fun pr => pr.hp) =
      some [0] := by
  have h := c3_projectile_terrain_amended c3_pools_d 0 0 (0, 0) c3_terrain_d c3_proj rfl rfl
  exact ⟨by decide, by decide⟩

/-- A player mobile with 50 hp. -/
def c4_player : Entity Mobile :=
  { sprite := { position := (0, 0), animation_sm := { events := [] } },
    position := (0, 0),
    collider := { rect := { x := 0, y := 0, w := 10, h := 10 }, vx := 0, vy := 0,
                  hp := 50, is_player := true } }

/-- An enemy mobile with equal hp 50. -/
def c4_enemy : Entity Mobile :=
  { sprite := { position := (0, 0), animation_sm := { events := [] } },
    position := (0, 0),
    collider := { rect := { x := 0, y := 0, w := 10, h := 10 }, vx := 0, vy := 0,
                  hp := 50, is_player := false } }

/-- The pools for the C4 counterexample: a tie in hp. -/
def c4_pools : Pools := { terrains := [], mobiles := [c4_player, c4_enemy], projs := [] }

/-- The Mobile-vs-Mobile contact for the C4 counterexample. -/
def c4_contact : Contact :=
  { a := ColliderID.Mobile 0, b := ColliderID.Mobile 1, mtv := (0, 0) }

/-- C4, counterexample: the claim says the side with strictly lower hp is set
to 0 and the side with higher-or-equal hp takes 30 damage floored at 0.  On
an hp tie (both sides 50, neither strictly lower, both higher-or-equal) the
claim predicts both sides end at 20; the code instead zeroes side `a` (the
first component of the contact) and damages only side `b`: the result is
hp `[0, 20]`, not `[20, 20]`. -/
theorem c4_tie_counterexample :
    c4_player.collider.hp = c4_enemy.collider.hp ∧
    c4_player.collider.hp - 30 = 20 ∧
    (damageStep c4_pools c4_contact).map (fun p => p.mobiles.map fun m => m.collider.hp) =
      some [0, 20] ∧
    (damageStep c4_pools c4_contact).map (fun p => p.mobiles.map fun m => m.collider.hp) ≠
      some [20, 20] := by
  refine ⟨by decide, by decide, by decide, ?_⟩
  intro hcon
  have : ([0, 20] : List Nat) = [20, 20] := by
    have h1 : (damageStep c4_pools c4_contact).map
        (fun p => p.mobiles.map fun m => m.collider.hp) = some [0, 20] := by decide
    rw [h1] at hcon
    exact Option.some.inj hcon
  simp at this

/-- C4, amended: for every Mobile-vs-Mobile contact `(a, b)` with distinct
in-bounds indices: if neither side is the player, no hp changes; if at least
one side is the player, then when side `a` has strictly greater hp, side `b`
is set to 0 and side `a` takes 30 damage floored at 0, and otherwise —
including the hp tie — side `a` is set to 0 and side `b` takes 30 damage
floored at 0 (so on a tie the first side of the contact is the one
destroyed). -/
theorem c4_mobile_mobile_amended (pools : Pools) (a b : Nat) (mtv : Int × Int)
    (ma mb : Entity Mobile) (hab : a ≠ b)
    (hma : pools.mobiles[a]? = some ma) (hmb : pools.mobiles[b]? = some mb) :
    (ma.collider.is_player = false → mb.collider.is_player = false →
      damageStep pools { a := ColliderID.Mobile a, b := ColliderID.Mobile b, mtv := mtv } =
        some pools) ∧
    (ma.collider.is_player = true ∨ mb.collider.is_player = true →
      ∃ res, damageStep pools
          { a := ColliderID.Mobile a, b := ColliderID.Mobile b, mtv := mtv } = some res ∧
        res.terrains = pools.terrains ∧ res.projs = pools.projs ∧
        (∀ i, i ≠ a → i ≠ b → res.mobiles[i]? = pools.mobiles[i]?) ∧
        (∃ ma' mb', res.mobiles[a]? = some ma' ∧ res.mobiles[b]? = some mb' ∧
          ma'.collider.is_player = ma.collider.is_player ∧
          mb'.collider.is_player = mb.collider.is_player ∧
          (ma.collider.hp > mb.collider.hp →
            mb'.collider.hp = 0 ∧ ma'.collider.hp = ma.collider.hp - 30) ∧
          (ma.collider.hp ≤ mb.collider.hp →
            ma'.collider.hp = 0 ∧ mb'.collider.hp = mb.collider.hp - 30))) := by
  have hlta : a < pools.mobiles.length := (List.getElem?_eq_some.mp hma).1
  have hltb : b < pools.mobiles.length := (List.getElem?_eq_some.mp hmb).1
  rw [damageStep_MM_eq pools a b mtv ma mb hab hma hmb]
  constructor
  · intro hpa hpb
    rw [if_neg (by rw [hpa, hpb]; simp)]
  · intro hpl
    rw [if_pos (by rcases hpl with h | h <;> rw [h] <;> simp)]
    by_cases hgt : ma.collider.hp > mb.collider.hp
    · rw [if_pos hgt]
      refine ⟨_, rfl, rfl, rfl, ?_,
        ⟨{ ma with collider := { ma.collider with
             hp := if ma.collider.hp ≥ 30 then ma.collider.hp - 30 else 0 } },
         { mb with collider := { mb.collider with hp := 0 } }, ?_, ?_, ?_, ?_, ?_, ?_⟩⟩
      · intro i hia hib
        rw [List.getElem?_set_ne (Ne.symm hia), List.getElem?_set_ne (Ne.symm hib)]
      · exact List.getElem?_set_self (by rw [List.length_set]; exact hlta)
      · rw [List.getElem?_set_ne hab]
        exact List.getElem?_set_self hltb
      · rfl
      · rfl
      · intro _
        refine ⟨rfl, ?_⟩
        simp only
        split <;> omega
      · intro hle
        exact absurd hle (not_le.mpr hgt)
    · rw [if_neg hgt]
      refine ⟨_, rfl, rfl, rfl, ?_,
        ⟨{ ma with collider := { ma.collider with hp := 0 } },
         { mb with collider := { mb.collider with
             hp := if mb.collider.hp ≥ 30 then mb.collider.hp - 30 else 0 } },
         ?_, ?_, ?_, ?_, ?_, ?_⟩⟩
      · intro i hia hib
        rw [List.getElem?_set_ne (Ne.symm hib), List.getElem?_set_ne (Ne.symm hia)]
      · rw [List.getElem?_set_ne (Ne.symm hab)]
        exact List.getElem?_set_self hlta
      · exact List.getElem?_set_self (by rw [List.length_set]; exact hltb)
      · rfl
      · rfl
      · intro hgt2
        exact absurd hgt2 hgt
      · intro _
        refine ⟨rfl, ?_⟩
        simp only
        split <;> omega

/-- Witness for `c4_mobile_mobile_amended`: the spec scenario
`[player(hp=100), enemy(hp=50)]` — the enemy dies and the player drops to
70. -/
def c4_player100 : Entity Mobile :=
  { c4_player with collider := { c4_player.collider with hp := 100 } }

/-- The pools for the C4 witness. -/
def c4_pools_w : Pools := { terrains := [], mobiles := [c4_player100, c4_enemy], projs := [] }

/-- Witness for `c4_mobile_mobile_amended`: player hp 100 vs enemy hp 50
gives enemy hp 0 and player hp 70. -/
theorem c4_mobile_mobile_amended_witness :
    (damageStep c4_pools_w c4_contact).map (fun p => p.mobiles.map fun m => m.collider.hp) =
      some [70, 0] := by
  have h := (c4_mobile_mobile_amended c4_pools_w 0 1 (0, 0) c4_player100 c4_enemy
    (by decide) rfl rfl).2 (Or.inl rfl)
  decide

/-- C9: every hp subtraction performed by the rule resolver is floored at
zero and never underflows or wraps: at each of the three damage sites
(projectile-vs-mobile, projectile-vs-destructible-terrain, the 30-point
mobile-vs-mobile hit), hp never increases, damage exceeding the current hp
leaves exactly 0, and a mobile or terrain already at 0 hp that is hit again
stays at 0. -/
theorem c9_damage_floor (pools : Pools) (mtv : Int × Int) :
    (∀ a b pa mb res mk,
      pools.projs[a]? = some pa → pools.mobiles[b]? = some mb →
      damageStep pools { a := ColliderID.Projectile a, b := ColliderID.Mobile b, mtv := mtv } =
        some res →
      res.mobiles[b]? = some mk →
      mk.collider.hp ≤ mb.collider.hp ∧
      (pa.hp > mb.collider.hp → mk.collider.hp = 0) ∧
      (mb.collider.hp = 0 → mk.collider.hp = 0)) ∧
    (∀ a b pa tb res tk,
      pools.projs[a]? = some pa → pools.terrains[b]? = some tb →
      damageStep pools { a := ColliderID.Projectile a, b := ColliderID.Terrain b, mtv := mtv } =
        some res →
      res.terrains[b]? = some tk →
      tk.collider.hp ≤ tb.collider.hp ∧
      (tb.collider.destructible = true → pa.hp > tb.collider.hp → tk.collider.hp = 0) ∧
      (tb.collider.hp = 0 → tk.collider.hp = 0)) ∧
    (∀ a b ma mb res mj mk, a ≠ b →
      pools.mobiles[a]? = some ma → pools.mobiles[b]? = some mb →
      (ma.collider.is_player = true ∨ mb.collider.is_player = true) →
      damageStep pools { a := ColliderID.Mobile a, b := ColliderID.Mobile b, mtv := mtv } =
        some res →
      res.mobiles[a]? = some mj → res.mobiles[b]? = some mk →
      mj.collider.hp ≤ ma.collider.hp ∧ mk.collider.hp ≤ mb.collider.hp ∧
      (30 > ma.collider.hp → mj.collider.hp = 0) ∧
      (30 > mb.collider.hp → mk.collider.hp = 0) ∧
      (ma.collider.hp = 0 → mj.collider.hp = 0) ∧
      (mb.collider.hp = 0 → mk.collider.hp = 0)) := by
  refine ⟨?_, ?_, ?_⟩
  · intro a b pa mb res mk hpa hmb hres hmk
    rw [damageStep_PM_eq pools a b mtv mb pa hmb hpa] at hres
    cases hres
    have hltb : b < pools.mobiles.length := (List.getElem?_eq_some.mp hmb).1
    rw [List.getElem?_set_self hltb] at hmk
    cases hmk
    refine ⟨?_, ?_, ?_⟩
    · show (if mb.collider.hp ≥ pa.hp then mb.collider.hp - pa.hp else 0) ≤ mb.collider.hp
      split <;> omega
    · intro hgt
      show (if mb.collider.hp ≥ pa.hp then mb.collider.hp - pa.hp else 0) = 0
      split <;> omega
    · intro h0
      show (if mb.collider.hp ≥ pa.hp then mb.collider.hp - pa.hp else 0) = 0
      split <;> omega
  · intro a b pa tb res tk hpa htb hres htk
    rw [damageStep_PT_eq pools a b mtv tb pa htb hpa] at hres
    cases hres
    have hltb : b < pools.terrains.length := (List.getElem?_eq_some.mp htb).1
    by_cases hd : tb.collider.destructible = true
    · rw [if_pos hd] at htk
      rw [List.getElem?_set_self hltb] at htk
      cases htk
      refine ⟨?_, ?_, ?_⟩
      · show (if tb.collider.hp ≥ pa.hp then tb.collider.hp - pa.hp else 0) ≤ tb.collider.hp
        split <;> omega
      · intro _ hgt
        show (if tb.collider.hp ≥ pa.hp then tb.collider.hp - pa.hp else 0) = 0
        split <;> omega
      · intro h0
        show (if tb.collider.hp ≥ pa.hp then tb.collider.hp - pa.hp else 0) = 0
        split <;> omega
    · rw [if_neg hd] at htk
      rw [htb] at htk
      cases htk
      exact ⟨le_refl _, fun hdes _ => absurd hdes hd, fun h0 => h0⟩
  · intro a b ma mb res mj mk hab hma hmb hpl hres hmj hmk
    rw [damageStep_MM_eq pools a b mtv ma mb hab hma hmb] at hres
    cases hres
    have hlta : a < pools.mobiles.length := (List.getElem?_eq_some.mp hma).1
    have hltb : b < pools.mobiles.length := (List.getElem?_eq_some.mp hmb).1
    have hplb : (ma.collider.is_player || mb.collider.is_player) = true := by
      rcases hpl with h | h <;> rw [h] <;> simp
    rw [if_pos hplb] at hmj hmk
    by_cases hgt : ma.collider.hp > mb.collider.hp
    · rw [if_pos hgt] at hmj hmk
      rw [List.getElem?_set_self (by rw [List.length_set]; exact hlta)] at hmj
      cases hmj
      rw [List.getElem?_set_ne hab, List.getElem?_set_self hltb] at hmk
      cases hmk
      refine ⟨?_, ?_, ?_, ?_, ?_, ?_⟩
      · show (if ma.collider.hp ≥ 30 then ma.collider.hp - 30 else 0) ≤ ma.collider.hp
        split <;> omega
      · show (0 : Nat) ≤ mb.collider.hp
        omega
      · intro h30
        show (if ma.collider.hp ≥ 30 then ma.collider.hp - 30 else 0) = 0
        split <;> omega
      · intro _
        rfl
      · intro h0
        show (if ma.collider.hp ≥ 30 then ma.collider.hp - 30 else 0) = 0
        split <;> omega
      · intro _
        rfl
    · rw [if_neg hgt] at hmj hmk
      rw [List.getElem?_set_ne (Ne.symm hab), List.getElem?_set_self hlta] at hmj
      cases hmj
      rw [List.getElem?_set_self (by rw [List.length_set]; exact hltb)] at hmk
      cases hmk
      refine ⟨?_, ?_, ?_, ?_, ?_, ?_⟩
      · show (0 : Nat) ≤ ma.collider.hp
        omega
      · show (if mb.collider.hp ≥ 30 then mb.collider.hp - 30 else 0) ≤ mb.collider.hp
        split <;> omega
      · intro _
        rfl
      · intro h30
        show (if mb.collider.hp ≥ 30 then mb.collider.hp - 30 else 0) = 0
        split <;> omega
      · intro _
        rfl
      · intro h0
        show (if mb.collider.hp ≥ 30 then mb.collider.hp - 30 else 0) = 0
        split <;> omega

/-- Witness for `c9_damage_floor`: a projectile with payload 10 hitting a
mobile with 4 hp leaves it at exactly 0 (no underflow). -/
def c9_weak_enemy : Entity Mobile :=
  { c4_enemy with collider := { c4_enemy.collider with hp := 4 } }

/-- The pools for the C9 witness. -/
def c9_pools : Pools := { terrains := [], mobiles := [c9_weak_enemy], projs := [c3_proj] }

/-- The Projectile-vs-Mobile contact for the C9 witness. -/
def c9_contact : Contact :=
  { a := ColliderID.Projectile 0, b := ColliderID.Mobile 0, mtv := (0, 0) }

/-- Witness for `c9_damage_floor`: payload 10 against 4 hp floors at 0. -/
theorem c9_damage_floor_witness :
    (damageStep c9_pools c9_contact).map (fun p => p.mobiles.map fun m => m.collider.hp) =
      some [0] := by
  have h := (c9_damage_floor c9_pools (0, 0)).1 0 0 c3_proj c9_weak_enemy
  decide

/-- C2: after the damage pass of `handle_contact` (hypothesis: the restitute
and damage phases succeeded, yielding the pools `pools`, and the mobile pool
is non-empty with head `m0`), the function returns: the mobile pool filtered
by `hp > 0 || is_player` — so every hp-0 mobile is removed except players,
which are retained even at 0 hp; the alive flag `mobiles[0].hp != 0` read
from the damaged pool before pruning; and a removal count equal to the
mobile pool's length before the retain step minus its length after. -/
theorem c2_resolve_and_prune (terrains : List (Entity Terrain))
    (mobiles : List (Entity Mobile)) (projs : List Projectile) (contacts : List Contact)
    (pools : Pools) (sorted : List Contact) (m0 : Entity Mobile)
    (h : damagePhase terrains mobiles projs contacts = some (pools, sorted))
    (h0 : pools.mobiles[0]? = some m0) :
    ∃ out, handle_contact terrains mobiles projs contacts = some out ∧
      out.mobiles = pools.mobiles.filter
        (fun m => m.collider.hp > 0 || m.collider.is_player) ∧
      (∀ m ∈ pools.mobiles, m.collider.hp = 0 → m.collider.is_player = false →
        m ∉ out.mobiles) ∧
      (∀ m ∈ pools.mobiles, m.collider.is_player = true → m ∈ out.mobiles) ∧
      out.terrains = pools.terrains.filter (fun t => t.collider.hp > 0) ∧
      out.projs = pools.projs.filter (fun p => p.hp > 0) ∧
      out.contacts = sorted ∧
      out.player_is_alive = (m0.collider.hp != 0) ∧
      out.enemies_removed = pools.mobiles.length - out.mobiles.length := by
  simp only [handle_contact, h, h0]
  refine ⟨_, rfl, rfl, ?_, ?_, rfl, rfl, rfl, rfl, rfl⟩
  · intro m hm h0m hnp hmem
    rw [List.mem_filter] at hmem
    rw [h0m, hnp] at hmem
    simp at hmem
  · intro m hm hpl
    rw [List.mem_filter]
    refine ⟨hm, ?_⟩
    rw [hpl]
    simp

/-- A player mobile already at 0 hp. -/
def c2_dead_player : Entity Mobile :=
  { c4_player with collider := { c4_player.collider with hp := 0 } }

/-- A non-player mobile already at 0 hp. -/
def c2_dead_enemy : Entity Mobile :=
  { c4_enemy with collider := { c4_enemy.collider with hp := 0 } }

/-- The post-damage pools of the C2 witness run (no contacts, so the damage
phase is the identity). -/
def c2_pools : Pools :=
  { terrains := [], mobiles := [c2_dead_player, c2_dead_enemy], projs := [] }

/-- Witness for `c2_resolve_and_prune`: with both mobiles at 0 hp, pruning
removes only the enemy, keeps the dead player in slot 0, reports
`player_is_alive = false` and one removed mobile. -/
theorem c2_resolve_and_prune_witness :
    (handle_contact [] [c2_dead_player, c2_dead_enemy] [] []).map
      (fun out => (out.mobiles, out.player_is_alive, out.enemies_removed)) =
      some ([c2_dead_player], false, 1) := by
  have h := c2_resolve_and_prune [] [c2_dead_player, c2_dead_enemy] [] [] c2_pools []
    c2_dead_player (by decide) rfl
  decide

/-- A successful restitution step never changes the mobile pool's length. -/
theorem restituteStep_length {d d' : List (Entity Mobile)} {c : Contact}
    (h : restituteStep d c = some d') : d'.length = d.length := by
  rcases c with ⟨ca, cb, mtv⟩
  rcases ca with ti | ai | pi | wi <;> rcases cb with tj | mj | pj | wj <;>
    simp only [restituteStep] at h <;>
    try (cases h; rfl)
  split at h
  · exact Option.noConfusion h
  · cases h
    exact List.length_set ..

/-- A successful restitution fold never changes the mobile pool's length. -/
theorem foldlM_restituteStep_length :
    ∀ (cs : List Contact) (d d' : List (Entity Mobile)),
      cs.foldlM restituteStep d = some d' → d'.length = d.length := by
  intro cs
  induction cs with
  | nil =>
    intro d d' h
    cases h
    rfl
  | cons c cs ih =>
    intro d d' h
    rw [List.foldlM_cons] at h
    cases hstep : restituteStep d c with
    | none =>
      rw [hstep] at h
      exact Option.noConfusion h
    | some d1 =>
      rw [hstep] at h
      simp only [Option.bind_eq_bind, Option.some_bind] at h
      exact (ih d1 d' h).trans (restituteStep_length hstep)

/-- A successful damage step never changes any pool's length. -/
theorem damageStep_lengths {pools pools' : Pools} {c : Contact}
    (h : damageStep pools c = some pools') :
    pools'.terrains.length = pools.terrains.length ∧
    pools'.mobiles.length = pools.mobiles.length ∧
    pools'.projs.length = pools.projs.length := by
  rcases c with ⟨ca, cb, mtv⟩
  rcases ca with ti | ai | pi | wi <;> rcases cb with tj | mj | pj | wj <;>
    simp only [damageStep] at h
  all_goals try (cases h; exact ⟨rfl, rfl, rfl⟩)
  -- Mobile-vs-Terrain
  · cases hma : pools.mobiles[ai]? with
    | none =>
      simp only [hma] at h
      exact Option.noConfusion h
    | some ma =>
      simp only [hma] at h
      by_cases hpl : ma.collider.is_player = true
      · rw [if_pos hpl] at h
        cases h
        exact ⟨rfl, by simp [List.length_set], rfl⟩
      · rw [if_neg hpl] at h
        cases h
        exact ⟨rfl, rfl, rfl⟩
  -- Mobile-vs-Mobile
  · cases hma : pools.mobiles[ai]? with
    | none =>
      simp only [hma] at h
      exact Option.noConfusion h
    | some ma =>
      cases hmb : pools.mobiles[mj]? with
      | none =>
        simp only [hma, hmb] at h
        exact Option.noConfusion h
      | some mb =>
        simp only [hma, hmb] at h
        by_cases hpl : (ma.collider.is_player || mb.collider.is_player) = true
        · rw [if_pos hpl] at h
          by_cases hgt : ma.collider.hp > mb.collider.hp
          · rw [if_pos hgt] at h
            cases hre : (pools.mobiles.set mj
                { mb with collider := { mb.collider with hp := 0 } })[ai]? with
            | none =>
              simp only [hre] at h
              exact Option.noConfusion h
            | some ma1 =>
              simp only [hre] at h
              cases h
              exact ⟨rfl, by simp [List.length_set], rfl⟩
          · rw [if_neg hgt] at h
            cases hre : (pools.mobiles.set ai
                { ma with collider := { ma.collider with hp := 0 } })[mj]? with
            | none =>
              simp only [hre] at h
              exact Option.noConfusion h
            | some mb1 =>
              simp only [hre] at h
              cases h
              exact ⟨rfl, by simp [List.length_set], rfl⟩
        · rw [if_neg hpl] at h
          cases h
          exact ⟨rfl, rfl, rfl⟩
  -- Projectile-vs-Terrain
  · cases htb : pools.terrains[tj]? with
    | none =>
      simp only [htb] at h
      exact Option.noConfusion h
    | some tb =>
      simp only [htb] at h
      by_cases hd : tb.collider.destructible = true
      · rw [if_pos hd] at h
        cases hpa : pools.projs[pi]? with
        | none =>
          simp only [hpa] at h
          exact Option.noConfusion h
        | some pa =>
          simp only [hpa] at h
          cases h
          exact ⟨by simp [List.length_set], rfl, by simp [List.length_set]⟩
      · rw [if_neg hd] at h
        cases hpa : pools.projs[pi]? with
        | none =>
          simp only [hpa] at h
          exact Option.noConfusion h
        | some pa =>
          simp only [hpa] at h
          cases h
          exact ⟨rfl, rfl, by simp [List.length_set]⟩
  -- Projectile-vs-Mobile
  · cases hmb : pools.mobiles[mj]? with
    | none =>
      simp only [hmb] at h
      exact Option.noConfusion h
    | some mb =>
      cases hpa : pools.projs[pi]? with
      | none =>
        simp only [hmb, hpa] at h
        exact Option.noConfusion h
      | some pa =>
        simp only [hmb, hpa] at h
        cases h
        exact ⟨rfl, by simp [List.length_set], by simp [List.length_set]⟩

/-- A successful damage fold never changes any pool's length. -/
theorem foldlM_damageStep_lengths :
    ∀ (cs : List Contact) (pools pools' : Pools),
      cs.foldlM damageStep pools = some pools' →
      pools'.terrains.length = pools.terrains.length ∧
      pools'.mobiles.length = pools.mobiles.length ∧
      pools'.projs.length = pools.projs.length := by
  intro cs
  induction cs with
  | nil =>
    intro pools pools' h
    cases h
    exact ⟨rfl, rfl, rfl⟩
  | cons c cs ih =>
    intro pools pools' h
    rw [List.foldlM_cons] at h
    cases hstep : damageStep pools c with
    | none =>
      rw [hstep] at h
      exact Option.noConfusion h
    | some p1 =>
      rw [hstep] at h
      simp only [Option.bind_eq_bind, Option.some_bind] at h
      obtain ⟨h1, h2, h3⟩ := ih p1 pools' h
      obtain ⟨g1, g2, g3⟩ := damageStep_lengths hstep
      exact ⟨h1.trans g1, h2.trans g2, h3.trans g3⟩

/-- Whether a `ColliderID`'s index is within bounds, given the three pool
lengths `handle_contact` receives.  Wall indices are never dereferenced by
`handle_contact` or `restitute` (there is no wall pool argument), so `Wall`
is unconstrained. -/
def idWithinBounds (nt nm np : Nat) : ColliderID → Bool
  | ColliderID.Terrain i => i < nt
  | ColliderID.Mobile i => i < nm
  | ColliderID.Projectile i => i < np
  | ColliderID.Wall _ => true

/-- A restitution step cannot panic when the contact's Mobile index (if any)
is within the mobile pool. -/
theorem restituteStep_isSome (d : List (Entity Mobile)) (c : Contact)
    (hok : ∀ ai, c.a = ColliderID.Mobile ai → ai < d.length) :
    (restituteStep d c).isSome = true := by
  rcases c with ⟨ca, cb, mtv⟩
  rcases ca with ti | ai | pi | wi <;> rcases cb with tj | mj | pj | wj <;>
    simp only [restituteStep]
  all_goals try rfl
  have hlt : ai < d.length := hok ai rfl
  rw [List.getElem?_eq_getElem hlt]
  rfl

/-- The restitution fold cannot panic when every contact's Mobile index is
within the mobile pool. -/
theorem foldlM_restituteStep_total :
    ∀ (cs : List Contact) (d : List (Entity Mobile)),
      (∀ c ∈ cs, ∀ ai, c.a = ColliderID.Mobile ai → ai < d.length) →
      (cs.foldlM restituteStep d).isSome = true := by
  intro cs
  induction cs with
  | nil =>
    intro d _
    rfl
  | cons c cs ih =>
    intro d hok
    rw [List.foldlM_cons]
    cases hstep : restituteStep d c with
    | none =>
      have hs := restituteStep_isSome d c (fun ai ha => hok c (List.mem_cons_self c cs) ai ha)
      rw [hstep] at hs
      exact absurd hs (by simp)
    | some d1 =>
      simp only [Option.bind_eq_bind, Option.some_bind]
      have hlen1 : d1.length = d.length := restituteStep_length hstep
      exact ih d1 (fun c2 hc2 ai ha => by
        rw [hlen1]
        exact hok c2 (List.mem_cons_of_mem _ hc2) ai ha)

/-- A damage step cannot panic when both contact indices are within their
pools. -/
theorem damageStep_isSome (pools : Pools) (c : Contact)
    (ha : idWithinBounds pools.terrains.length pools.mobiles.length pools.projs.length
      c.a = true)
    (hb : idWithinBounds pools.terrains.length pools.mobiles.length pools.projs.length
      c.b = true) :
    (damageStep pools c).isSome = true := by
  rcases c with ⟨ca, cb, mtv⟩
  rcases ca with ti | ai | pi | wi <;> rcases cb with tj | mj | pj | wj <;>
    simp only [damageStep]
  all_goals try rfl
  -- Mobile-vs-Terrain
  · have hlt : ai < pools.mobiles.length := by simpa [idWithinBounds] using ha
    simp only [List.getElem?_eq_getElem hlt]
    by_cases hpl : (pools.mobiles[ai]).collider.is_player = true
    · rw [if_pos hpl]
      rfl
    · rw [if_neg hpl]
      rfl
  -- Mobile-vs-Mobile
  · have hlta : ai < pools.mobiles.length := by simpa [idWithinBounds] using ha
    have hltb : mj < pools.mobiles.length := by simpa [idWithinBounds] using hb
    simp only [List.getElem?_eq_getElem hlta, List.getElem?_eq_getElem hltb]
    by_cases hpl : ((pools.mobiles[ai]).collider.is_player ||
        (pools.mobiles[mj]).collider.is_player) = true
    · rw [if_pos hpl]
      by_cases hgt : (pools.mobiles[ai]).collider.hp > (pools.mobiles[mj]).collider.hp
      · rw [if_pos hgt,
          List.getElem?_eq_getElem (show ai < (pools.mobiles.set mj _).length by
            rw [List.length_set]; exact hlta)]
        rfl
      · rw [if_neg hgt,
          List.getElem?_eq_getElem (show mj < (pools.mobiles.set ai _).length by
            rw [List.length_set]; exact hltb)]
        rfl
    · rw [if_neg hpl]
      rfl
  -- Projectile-vs-Terrain
  · have hltt : tj < pools.terrains.length := by simpa [idWithinBounds] using hb
    have hltp : pi < pools.projs.length := by simpa [idWithinBounds] using ha
    simp only [List.getElem?_eq_getElem hltt, List.getElem?_eq_getElem hltp]
    by_cases hd : (pools.terrains[tj]).collider.destructible = true
    · rw [if_pos hd]
      rfl
    · rw [if_neg hd]
      rfl
  -- Projectile-vs-Mobile
  · have hltm : mj < pools.mobiles.length := by simpa [idWithinBounds] using hb
    have hltp : pi < pools.projs.length := by simpa [idWithinBounds] using ha
    simp only [List.getElem?_eq_getElem hltm, List.getElem?_eq_getElem hltp]
    rfl

/-- The damage fold cannot panic when every contact's indices are within
their pools. -/
theorem foldlM_damageStep_total :
    ∀ (cs : List Contact) (pools : Pools),
      (∀ c ∈ cs,
        idWithinBounds pools.terrains.length pools.mobiles.length pools.projs.length
          c.a = true ∧
        idWithinBounds pools.terrains.length pools.mobiles.length pools.projs.length
          c.b = true) →
      (cs.foldlM damageStep pools).isSome = true := by
  intro cs
  induction cs with
  | nil =>
    intro pools _
    rfl
  | cons c cs ih =>
    intro pools hok
    rw [List.foldlM_cons]
    cases hstep : damageStep pools c with
    | none =>
      have hs := damageStep_isSome pools c (hok c (List.mem_cons_self c cs)).1
        (hok c (List.mem_cons_self c cs)).2
      rw [hstep] at hs
      exact absurd hs (by simp)
    | some p1 =>
      simp only [Option.bind_eq_bind, Option.some_bind]
      obtain ⟨g1, g2, g3⟩ := damageStep_lengths hstep
      refine ih p1 (fun c2 hc2 => ?_)
      obtain ⟨h1, h2⟩ := hok c2 (List.mem_cons_of_mem _ hc2)
      rw [g1, g2, g3]
      exact ⟨h1, h2⟩

/-- C10: `handle_contact` unconditionally reads `mobiles[0]` for the alive
flag, so it panics (returns `none` in the model) whenever it is called with
an empty Mobile pool, regardless of the other arguments; and under the
precondition that the Mobile pool is non-empty and every `ColliderID` index
in the contact list is within the bounds of its pool — the situation for
contacts generated in the same tick — every pool access in the restitution
and damage loops and the `mobiles[0]` read are in bounds and the function
returns normally (`some`). -/
theorem c10_handle_contact_totality :
    (∀ terrains projs contacts, handle_contact terrains [] projs contacts = none) ∧
    (∀ terrains mobiles projs contacts, mobiles ≠ [] →
      (∀ c ∈ contacts,
        idWithinBounds terrains.length mobiles.length projs.length c.a = true ∧
        idWithinBounds terrains.length mobiles.length projs.length c.b = true) →
      ∃ out, handle_contact terrains mobiles projs contacts = some out) := by
  constructor
  · intro terrains projs contacts
    cases hdp : damagePhase terrains [] projs contacts with
    | none => simp [handle_contact, hdp]
    | some ps =>
      obtain ⟨pools, sorted⟩ := ps
      have hlen : pools.mobiles.length = 0 := by
        unfold damagePhase at hdp
        cases hr : restitute terrains [] contacts with
        | none =>
          rw [hr] at hdp
          exact Option.noConfusion hdp
        | some rs =>
          obtain ⟨m1, cs1⟩ := rs
          simp only [hr] at hdp
          have hm1 : m1.length = 0 := by
            unfold restitute at hr
            split at hr
            · next d hd =>
              cases hr
              exact foldlM_restituteStep_length _ _ _ hd
            · exact Option.noConfusion hr
          cases hfold : cs1.foldlM damageStep
              { terrains := terrains, mobiles := m1, projs := projs } with
          | none =>
            simp only [hfold] at hdp
            exact Option.noConfusion hdp
          | some pools2 =>
            simp only [hfold] at hdp
            simp only [Option.some.injEq, Prod.mk.injEq] at hdp
            obtain ⟨h1, _⟩ := hdp
            have := (foldlM_damageStep_lengths cs1 _ _ hfold).2.1
            rw [h1] at this
            simpa [hm1] using this
      have h0 : pools.mobiles[0]? = none := List.getElem?_eq_none (by omega)
      simp [handle_contact, hdp, h0]
  · intro terrains mobiles projs contacts hne hok
    have hrt : ((sortContacts contacts).foldlM restituteStep mobiles).isSome = true := by
      apply foldlM_restituteStep_total
      intro c hc ai ha
      have hcmem : c ∈ contacts := ((List.perm_insertionSort _ contacts).mem_iff).mp hc
      have hba := (hok c hcmem).1
      rw [ha] at hba
      simpa [idWithinBounds] using hba
    obtain ⟨m1, hm1⟩ := Option.isSome_iff_exists.mp hrt
    have hm1len : m1.length = mobiles.length := foldlM_restituteStep_length _ _ _ hm1
    have hr : restitute terrains mobiles contacts = some (m1, sortContacts contacts) := by
      unfold restitute
      rw [hm1]
    have hdf : ((sortContacts contacts).foldlM damageStep
        { terrains := terrains, mobiles := m1, projs := projs }).isSome = true := by
      apply foldlM_damageStep_total
      intro c hc
      have hcmem : c ∈ contacts := ((List.perm_insertionSort _ contacts).mem_iff).mp hc
      obtain ⟨h1, h2⟩ := hok c hcmem
      constructor <;> simp only [hm1len] <;> assumption
    obtain ⟨pools2, hpools2⟩ := Option.isSome_iff_exists.mp hdf
    have hdp : damagePhase terrains mobiles projs contacts =
        some (pools2, sortContacts contacts) := by
      simp only [damagePhase, hr, hpools2]
    have hplen : pools2.mobiles.length = mobiles.length := by
      have := (foldlM_damageStep_lengths _ _ _ hpools2).2.1
      simpa [hm1len] using this
    have h0 : 0 < pools2.mobiles.length := by
      rw [hplen]
      cases mobiles with
      | nil => exact absurd rfl hne
      | cons m ms => simp
    have hsome : (handle_contact terrains mobiles projs contacts).isSome = true := by
      simp only [handle_contact, hdp, List.getElem?_eq_getElem h0]
      rfl
    exact Option.isSome_iff_exists.mp hsome

/-- Witness for `c10_handle_contact_totality`: a one-mobile pool with one
in-bounds Mobile-vs-Wall contact runs to completion. -/
theorem c10_handle_contact_totality_witness :
    handle_contact [] [] [] [] = none ∧
    (handle_contact [] [c5_mobile] [] [c5_contact]).isSome = true := by
  constructor
  · exact (c10_handle_contact_totality).1 [] [] []
  · obtain ⟨out, hout⟩ := (c10_handle_contact_totality).2 [] [c5_mobile] [] [c5_contact]
      (by simp) (by decide)
    rw [hout]
    rfl

/-- Membership in a rectangular sweep. -/
theorem mem_sweep_pairs {na nb : Nat} {mk : Nat → Nat → Option Contact} {c : Contact} :
    c ∈ sweep_pairs na nb mk ↔ ∃ ai bi, ai < na ∧ bi < nb ∧ mk ai bi = some c := by
  simp only [sweep_pairs, List.mem_flatMap, List.mem_filterMap, List.mem_range]
  constructor
  · rintro ⟨ai, hai, bi, hbi, hmk⟩
    exact ⟨ai, bi, hai, hbi, hmk⟩
  · rintro ⟨ai, bi, hai, hbi, hmk⟩
    exact ⟨ai, hai, bi, hbi, hmk⟩

/-- Membership in an upper-triangle sweep. -/
theorem mem_sweep_pairs_upper {n : Nat} {mk : Nat → Nat → Option Contact} {c : Contact} :
    c ∈ sweep_pairs_upper n mk ↔ ∃ ai bi, ai < bi ∧ bi < n ∧ mk ai bi = some c := by
  simp only [sweep_pairs_upper, List.mem_flatMap, List.mem_filterMap, List.mem_range,
    List.mem_range'_1]
  constructor
  · rintro ⟨ai, hai, bi, ⟨hlo, hhi⟩, hmk⟩
    exact ⟨ai, bi, by omega, by omega, hmk⟩
  · rintro ⟨ai, bi, hlo, hhi, hmk⟩
    exact ⟨ai, by omega, bi, ⟨by omega, by omega⟩, hmk⟩

/-- A rectangular sweep over an index-injective contact builder has no
duplicates. -/
theorem nodup_sweep_pairs (na nb : Nat) (mk : Nat → Nat → Option Contact)
    (hinj : ∀ ai bi aj bj c, mk ai bi = some c → mk aj bj = some c → ai = aj ∧ bi = bj) :
    (sweep_pairs na nb mk).Nodup := by
  unfold sweep_pairs
  rw [List.nodup_flatMap]
  constructor
  · intro ai _
    refine List.Nodup.filterMap ?_ (List.nodup_range nb)
    intro b1 b2 c hc1 hc2
    rw [Option.mem_def] at hc1 hc2
    exact (hinj ai b1 ai b2 c hc1 hc2).2
  · refine (List.nodup_range na).imp ?_
    intro a1 a2 hne c hc1 hc2
    rw [List.mem_filterMap] at hc1 hc2
    obtain ⟨b1, -, h1⟩ := hc1
    obtain ⟨b2, -, h2⟩ := hc2
    exact hne ((hinj a1 b1 a2 b2 c h1 h2).1)

/-- An upper-triangle sweep over an index-injective contact builder has no
duplicates. -/
theorem nodup_sweep_pairs_upper (n : Nat) (mk : Nat → Nat → Option Contact)
    (hinj : ∀ ai bi aj bj c, mk ai bi = some c → mk aj bj = some c → ai = aj ∧ bi = bj) :
    (sweep_pairs_upper n mk).Nodup := by
  unfold sweep_pairs_upper
  rw [List.nodup_flatMap]
  constructor
  · intro ai _
    refine List.Nodup.filterMap ?_ (List.nodup_range' _ _)
    intro b1 b2 c hc1 hc2
    rw [Option.mem_def] at hc1 hc2
    exact (hinj ai b1 ai b2 c hc1 hc2).2
  · refine (List.nodup_range n).imp ?_
    intro a1 a2 hne c hc1 hc2
    rw [List.mem_filterMap] at hc1 hc2
    obtain ⟨b1, -, h1⟩ := hc1
    obtain ⟨b2, -, h2⟩ := hc2
    exact hne ((hinj a1 b1 a2 b2 c h1 h2).1)

/-- Inversion for `mkMM`. -/
theorem mkMM_some {mobiles : _} {ai bi : Nat} {c : Contact}
    (h : mkMM mobiles ai bi = some c) :
    ∃ a b, mobiles[ai]? = some a ∧ mobiles[bi]? = some b ∧
      rects_overlap a.collider.rect b.collider.rect = true ∧
      c = { a := ColliderID.Mobile ai, b := ColliderID.Mobile bi,
            mtv := (0, 0) } := by
  unfold mkMM at h
  split at h
  · split at h
    · next hov =>
      cases h
      exact ⟨_, _, by assumption, by assumption, hov, rfl⟩
    · exact Option.noConfusion h
  · exact Option.noConfusion h

/-- Construction for `mkMM`. -/
theorem mkMM_eq_some {mobiles : _} {ai bi : Nat} {a b : _}
    (ha : mobiles[ai]? = some a) (hb : mobiles[bi]? = some b)
    (hov : rects_overlap a.collider.rect b.collider.rect = true) :
    mkMM mobiles ai bi =
      some { a := ColliderID.Mobile ai, b := ColliderID.Mobile bi,
             mtv := (0, 0) } := by
  unfold mkMM
  simp [ha, hb, hov]

/-- Index injectivity for `mkMM`. -/
theorem mkMM_inj {mobiles : _} :
    ∀ ai bi aj bj c, mkMM mobiles ai bi = some c →
      mkMM mobiles aj bj = some c → ai = aj ∧ bi = bj := by
  intro ai bi aj bj c h1 h2
  obtain ⟨-, -, -, -, -, hc1⟩ := mkMM_some h1
  obtain ⟨-, -, -, -, -, hc2⟩ := mkMM_some h2
  rw [hc1] at hc2
  simp only [Contact.mk.injEq, ColliderID.Mobile.injEq, ColliderID.Terrain.injEq,
    ColliderID.Projectile.injEq, ColliderID.Wall.injEq] at hc2
  exact ⟨hc2.1, hc2.2.1⟩


/-- Inversion for `mkMT`. -/
theorem mkMT_some {mobiles terrains : _} {ai bi : Nat} {c : Contact}
    (h : mkMT mobiles terrains ai bi = some c) :
    ∃ a b, mobiles[ai]? = some a ∧ terrains[bi]? = some b ∧
      rects_overlap a.collider.rect b.collider.rect = true ∧
      c = { a := ColliderID.Mobile ai, b := ColliderID.Terrain bi,
            mtv := (0, 0) } := by
  unfold mkMT at h
  split at h
  · split at h
    · next hov =>
      cases h
      exact ⟨_, _, by assumption, by assumption, hov, rfl⟩
    · exact Option.noConfusion h
  · exact Option.noConfusion h

/-- Construction for `mkMT`. -/
theorem mkMT_eq_some {mobiles terrains : _} {ai bi : Nat} {a b : _}
    (ha : mobiles[ai]? = some a) (hb : terrains[bi]? = some b)
    (hov : rects_overlap a.collider.rect b.collider.rect = true) :
    mkMT mobiles terrains ai bi =
      some { a := ColliderID.Mobile ai, b := ColliderID.Terrain bi,
             mtv := (0, 0) } := by
  unfold mkMT
  simp [ha, hb, hov]

/-- Index injectivity for `mkMT`. -/
theorem mkMT_inj {mobiles terrains : _} :
    ∀ ai bi aj bj c, mkMT mobiles terrains ai bi = some c →
      mkMT mobiles terrains aj bj = some c → ai = aj ∧ bi = bj := by
  intro ai bi aj bj c h1 h2
  obtain ⟨-, -, -, -, -, hc1⟩ := mkMT_some h1
  obtain ⟨-, -, -, -, -, hc2⟩ := mkMT_some h2
  rw [hc1] at hc2
  simp only [Contact.mk.injEq, ColliderID.Mobile.injEq, ColliderID.Terrain.injEq,
    ColliderID.Projectile.injEq, ColliderID.Wall.injEq] at hc2
  exact ⟨hc2.1, hc2.2.1⟩


/-- Inversion for `mkMW`. -/
theorem mkMW_some {mobiles walls : _} {ai bi : Nat} {c : Contact}
    (h : mkMW mobiles walls ai bi = some c) :
    ∃ a b, mobiles[ai]? = some a ∧ walls[bi]? = some b ∧
      rects_overlap a.collider.rect b.rect = true ∧
      c = { a := ColliderID.Mobile ai, b := ColliderID.Wall bi,
            mtv := match rect_displacement a.collider.rect b.rect with
                     | some (x, y) => (x, y)
                     | none => (0, 0) } := by
  unfold mkMW at h
  split at h
  · split at h
    · next hov =>
      cases h
      exact ⟨_, _, by assumption, by assumption, hov, rfl⟩
    · exact Option.noConfusion h
  · exact Option.noConfusion h

/-- Construction for `mkMW`. -/
theorem mkMW_eq_some {mobiles walls : _} {ai bi : Nat} {a b : _}
    (ha : mobiles[ai]? = some a) (hb : walls[bi]? = some b)
    (hov : rects_overlap a.collider.rect b.rect = true) :
    mkMW mobiles walls ai bi =
      some { a := ColliderID.Mobile ai, b := ColliderID.Wall bi,
             mtv := match rect_displacement a.collider.rect b.rect with
                     | some (x, y) => (x, y)
                     | none => (0, 0) } := by
  unfold mkMW
  simp [ha, hb, hov]

/-- Index injectivity for `mkMW`. -/
theorem mkMW_inj {mobiles walls : _} :
    ∀ ai bi aj bj c, mkMW mobiles walls ai bi = some c →
      mkMW mobiles walls aj bj = some c → ai = aj ∧ bi = bj := by
  intro ai bi aj bj c h1 h2
  obtain ⟨a1, b1, -, -, -, hc1⟩ := mkMW_some h1
  obtain ⟨a2, b2, -, -, -, hc2⟩ := mkMW_some h2
  rw [hc1] at hc2
  simp only [Contact.mk.injEq, ColliderID.Mobile.injEq, ColliderID.Wall.injEq] at hc2
  exact ⟨hc2.1, hc2.2.1⟩


/-- Inversion for `mkPM`. -/
theorem mkPM_some {projs mobiles : _} {ai bi : Nat} {c : Contact}
    (h : mkPM projs mobiles ai bi = some c) :
    ∃ a b, projs[ai]? = some a ∧ mobiles[bi]? = some b ∧
      rects_overlap a.rect b.collider.rect = true ∧
      c = { a := ColliderID.Projectile ai, b := ColliderID.Mobile bi,
            mtv := (0, 0) } := by
  unfold mkPM at h
  split at h
  · split at h
    · next hov =>
      cases h
      exact ⟨_, _, by assumption, by assumption, hov, rfl⟩
    · exact Option.noConfusion h
  · exact Option.noConfusion h

/-- Construction for `mkPM`. -/
theorem mkPM_eq_some {projs mobiles : _} {ai bi : Nat} {a b : _}
    (ha : projs[ai]? = some a) (hb : mobiles[bi]? = some b)
    (hov : rects_overlap a.rect b.collider.rect = true) :
    mkPM projs mobiles ai bi =
      some { a := ColliderID.Projectile ai, b := ColliderID.Mobile bi,
             mtv := (0, 0) } := by
  unfold mkPM
  simp [ha, hb, hov]

/-- Index injectivity for `mkPM`. -/
theorem mkPM_inj {projs mobiles : _} :
    ∀ ai bi aj bj c, mkPM projs mobiles ai bi = some c →
      mkPM projs mobiles aj bj = some c → ai = aj ∧ bi = bj := by
  intro ai bi aj bj c h1 h2
  obtain ⟨-, -, -, -, -, hc1⟩ := mkPM_some h1
  obtain ⟨-, -, -, -, -, hc2⟩ := mkPM_some h2
  rw [hc1] at hc2
  simp only [Contact.mk.injEq, ColliderID.Mobile.injEq, ColliderID.Terrain.injEq,
    ColliderID.Projectile.injEq, ColliderID.Wall.injEq] at hc2
  exact ⟨hc2.1, hc2.2.1⟩


/-- Inversion for `mkPT`. -/
theorem mkPT_some {projs terrains : _} {ai bi : Nat} {c : Contact}
    (h : mkPT projs terrains ai bi = some c) :
    ∃ a b, projs[ai]? = some a ∧ terrains[bi]? = some b ∧
      rects_overlap a.rect b.collider.rect = true ∧
      c = { a := ColliderID.Projectile ai, b := ColliderID.Terrain bi,
            mtv := (0, 0) } := by
  unfold mkPT at h
  split at h
  · split at h
    · next hov =>
      cases h
      exact ⟨_, _, by assumption, by assumption, hov, rfl⟩
    · exact Option.noConfusion h
  · exact Option.noConfusion h

/-- Construction for `mkPT`. -/
theorem mkPT_eq_some {projs terrains : _} {ai bi : Nat} {a b : _}
    (ha : projs[ai]? = some a) (hb : terrains[bi]? = some b)
    (hov : rects_overlap a.rect b.collider.rect = true) :
    mkPT projs terrains ai bi =
      some { a := ColliderID.Projectile ai, b := ColliderID.Terrain bi,
             mtv := (0, 0) } := by
  unfold mkPT
  simp [ha, hb, hov]

/-- Index injectivity for `mkPT`. -/
theorem mkPT_inj {projs terrains : _} :
    ∀ ai bi aj bj c, mkPT projs terrains ai bi = some c →
      mkPT projs terrains aj bj = some c → ai = aj ∧ bi = bj := by
  intro ai bi aj bj c h1 h2
  obtain ⟨-, -, -, -, -, hc1⟩ := mkPT_some h1
  obtain ⟨-, -, -, -, -, hc2⟩ := mkPT_some h2
  rw [hc1] at hc2
  simp only [Contact.mk.injEq, ColliderID.Mobile.injEq, ColliderID.Terrain.injEq,
    ColliderID.Projectile.injEq, ColliderID.Wall.injEq] at hc2
  exact ⟨hc2.1, hc2.2.1⟩

/-- The five sweeps of `gather_contacts` produce pairwise-distinct contacts:
within a sweep the indices are embedded in the contact, and across sweeps
the `(kind(a), kind(b))` constructor pairs differ. -/
theorem nodup_gathered (terrains : List (Entity Terrain)) (mobiles : List (Entity Mobile))
    (walls : List Wall) (projs : List Projectile) :
    (gathered terrains mobiles walls projs).Nodup := by
  have sMM : ∀ c ∈ sweep_pairs_upper mobiles.length (mkMM mobiles),
      ∃ i j, c.a = ColliderID.Mobile i ∧ c.b = ColliderID.Mobile j := by
    intro c hc
    obtain ⟨ai, bi, h1, h2, hmk⟩ := mem_sweep_pairs_upper.mp hc
    obtain ⟨a, b, ha, hb, hov, hceq⟩ := mkMM_some hmk
    subst hceq
    exact ⟨ai, bi, rfl, rfl⟩
  have sMT : ∀ c ∈ sweep_pairs mobiles.length terrains.length (mkMT mobiles terrains),
      ∃ i j, c.a = ColliderID.Mobile i ∧ c.b = ColliderID.Terrain j := by
    intro c hc
    obtain ⟨ai, bi, h1, h2, hmk⟩ := mem_sweep_pairs.mp hc
    obtain ⟨a, b, ha, hb, hov, hceq⟩ := mkMT_some hmk
    subst hceq
    exact ⟨ai, bi, rfl, rfl⟩
  have sMW : ∀ c ∈ sweep_pairs mobiles.length walls.length (mkMW mobiles walls),
      ∃ i j, c.a = ColliderID.Mobile i ∧ c.b = ColliderID.Wall j := by
    intro c hc
    obtain ⟨ai, bi, h1, h2, hmk⟩ := mem_sweep_pairs.mp hc
    obtain ⟨a, b, ha, hb, hov, hceq⟩ := mkMW_some hmk
    subst hceq
    exact ⟨ai, bi, rfl, rfl⟩
  have sPM : ∀ c ∈ sweep_pairs projs.length mobiles.length (mkPM projs mobiles),
      ∃ i j, c.a = ColliderID.Projectile i ∧ c.b = ColliderID.Mobile j := by
    intro c hc
    obtain ⟨ai, bi, h1, h2, hmk⟩ := mem_sweep_pairs.mp hc
    obtain ⟨a, b, ha, hb, hov, hceq⟩ := mkPM_some hmk
    subst hceq
    exact ⟨ai, bi, rfl, rfl⟩
  have sPT : ∀ c ∈ sweep_pairs projs.length terrains.length (mkPT projs terrains),
      ∃ i j, c.a = ColliderID.Projectile i ∧ c.b = ColliderID.Terrain j := by
    intro c hc
    obtain ⟨ai, bi, h1, h2, hmk⟩ := mem_sweep_pairs.mp hc
    obtain ⟨a, b, ha, hb, hov, hceq⟩ := mkPT_some hmk
    subst hceq
    exact ⟨ai, bi, rfl, rfl⟩
  have d45 : (sweep_pairs projs.length mobiles.length (mkPM projs mobiles)).Disjoint
      (sweep_pairs projs.length terrains.length (mkPT projs terrains)) := by
    intro c hc1 hc2
    obtain ⟨i1, j1, ha1, hb1⟩ := sPM c hc1
    obtain ⟨i2, j2, ha2, hb2⟩ := sPT c hc2
    rw [hb1] at hb2
    exact ColliderID.noConfusion hb2
  have d3r : (sweep_pairs mobiles.length walls.length (mkMW mobiles walls)).Disjoint
      (sweep_pairs projs.length mobiles.length (mkPM projs mobiles) ++
       sweep_pairs projs.length terrains.length (mkPT projs terrains)) := by
    intro c hc1 hc2
    obtain ⟨i1, j1, ha1, hb1⟩ := sMW c hc1
    rcases List.mem_append.mp hc2 with hc | hc
    · obtain ⟨i2, j2, ha2, hb2⟩ := sPM c hc
      rw [ha1] at ha2
      exact ColliderID.noConfusion ha2
    · obtain ⟨i2, j2, ha2, hb2⟩ := sPT c hc
      rw [ha1] at ha2
      exact ColliderID.noConfusion ha2
  have d2r : (sweep_pairs mobiles.length terrains.length (mkMT mobiles terrains)).Disjoint
      (sweep_pairs mobiles.length walls.length (mkMW mobiles walls) ++
       (sweep_pairs projs.length mobiles.length (mkPM projs mobiles) ++
        sweep_pairs projs.length terrains.length (mkPT projs terrains))) := by
    intro c hc1 hc2
    obtain ⟨i1, j1, ha1, hb1⟩ := sMT c hc1
    rcases List.mem_append.mp hc2 with hc | hc
    · obtain ⟨i2, j2, ha2, hb2⟩ := sMW c hc
      rw [hb1] at hb2
      exact ColliderID.noConfusion hb2
    · rcases List.mem_append.mp hc with hc3 | hc3
      · obtain ⟨i2, j2, ha2, hb2⟩ := sPM c hc3
        rw [ha1] at ha2
        exact ColliderID.noConfusion ha2
      · obtain ⟨i2, j2, ha2, hb2⟩ := sPT c hc3
        rw [ha1] at ha2
        exact ColliderID.noConfusion ha2
  have d1r : (sweep_pairs_upper mobiles.length (mkMM mobiles)).Disjoint
      (sweep_pairs mobiles.length terrains.length (mkMT mobiles terrains) ++
       (sweep_pairs mobiles.length walls.length (mkMW mobiles walls) ++
        (sweep_pairs projs.length mobiles.length (mkPM projs mobiles) ++
         sweep_pairs projs.length terrains.length (mkPT projs terrains)))) := by
    intro c hc1 hc2
    obtain ⟨i1, j1, ha1, hb1⟩ := sMM c hc1
    rcases List.mem_append.mp hc2 with hc | hc
    · obtain ⟨i2, j2, ha2, hb2⟩ := sMT c hc
      rw [hb1] at hb2
      exact ColliderID.noConfusion hb2
    · rcases List.mem_append.mp hc with hc3 | hc3
      · obtain ⟨i2, j2, ha2, hb2⟩ := sMW c hc3
        rw [hb1] at hb2
        exact ColliderID.noConfusion hb2
      · rcases List.mem_append.mp hc3 with hc4 | hc4
        · obtain ⟨i2, j2, ha2, hb2⟩ := sPM c hc4
          rw [ha1] at ha2
          exact ColliderID.noConfusion ha2
        · obtain ⟨i2, j2, ha2, hb2⟩ := sPT c hc4
          rw [ha1] at ha2
          exact ColliderID.noConfusion ha2
  unfold gathered
  have hnd := (nodup_sweep_pairs_upper _ _ mkMM_inj).append
    ((nodup_sweep_pairs _ _ _ mkMT_inj).append
      ((nodup_sweep_pairs _ _ _ mkMW_inj).append
        ((nodup_sweep_pairs _ _ _ mkPM_inj).append
          (nodup_sweep_pairs _ _ _ mkPT_inj) d45) d3r) d2r) d1r
  simpa [List.append_assoc] using hnd

/-- C7: `gather_contacts` only appends to the caller's buffer, appending
exactly the five sweeps Mobile-vs-Mobile (upper triangle, `i < j`),
Mobile-vs-Terrain, Mobile-vs-Wall, Projectile-vs-Mobile and
Projectile-vs-Terrain, in that order; the appended list has no duplicates
(each overlapping candidate pair appears exactly once); and a contact is in
it iff it comes from one of those five sweeps with the two rectangles
overlapping on both axes, with the `(a, b)` ordering `a` in
{Mobile, Projectile} and `b` in {Mobile, Terrain, Wall}, with the MTV
computed via `rect_displacement` for Mobile-vs-Wall contacts only and `(0,0)`
for every other pair. -/
theorem c7_gather_contacts_spec (terrains : List (Entity Terrain))
    (mobiles : List (Entity Mobile)) (walls : List Wall) (projs : List Projectile)
    (into : List Contact) :
    gather_contacts terrains mobiles walls projs into =
      into ++ gathered terrains mobiles walls projs ∧
    (gathered terrains mobiles walls projs).Nodup ∧
    (∀ c, c ∈ gathered terrains mobiles walls projs ↔
      ((∃ ai bi a b, ai < bi ∧ mobiles[ai]? = some a ∧ mobiles[bi]? = some b ∧
          rects_overlap a.collider.rect b.collider.rect = true ∧
          c = { a := ColliderID.Mobile ai, b := ColliderID.Mobile bi, mtv := (0, 0) }) ∨
       (∃ ai bi a b, mobiles[ai]? = some a ∧ terrains[bi]? = some b ∧
          rects_overlap a.collider.rect b.collider.rect = true ∧
          c = { a := ColliderID.Mobile ai, b := ColliderID.Terrain bi, mtv := (0, 0) }) ∨
       (∃ ai bi a b, mobiles[ai]? = some a ∧ walls[bi]? = some b ∧
          rects_overlap a.collider.rect b.rect = true ∧
          c = { a := ColliderID.Mobile ai, b := ColliderID.Wall bi,
                mtv := match rect_displacement a.collider.rect b.rect with
                       | some (x, y) => (x, y)
                       | none => (0, 0) }) ∨
       (∃ ai bi a b, projs[ai]? = some a ∧ mobiles[bi]? = some b ∧
          rects_overlap a.rect b.collider.rect = true ∧
          c = { a := ColliderID.Projectile ai, b := ColliderID.Mobile bi, mtv := (0, 0) }) ∨
       (∃ ai bi a b, projs[ai]? = some a ∧ terrains[bi]? = some b ∧
          rects_overlap a.rect b.collider.rect = true ∧
          c = { a := ColliderID.Projectile ai, b := ColliderID.Terrain bi,
                mtv := (0, 0) }))) := by
  refine ⟨rfl, nodup_gathered terrains mobiles walls projs, ?_⟩
  intro c
  unfold gathered
  simp only [List.mem_append, mem_sweep_pairs, mem_sweep_pairs_upper]
  constructor
  · rintro ((((⟨ai, bi, h1, h2, hmk⟩ | ⟨ai, bi, h1, h2, hmk⟩) | ⟨ai, bi, h1, h2, hmk⟩) |
      ⟨ai, bi, h1, h2, hmk⟩) | ⟨ai, bi, h1, h2, hmk⟩)
    · obtain ⟨a, b, ha, hb, hov, hceq⟩ := mkMM_some hmk
      exact Or.inl ⟨ai, bi, a, b, h1, ha, hb, hov, hceq⟩
    · obtain ⟨a, b, ha, hb, hov, hceq⟩ := mkMT_some hmk
      exact Or.inr (Or.inl ⟨ai, bi, a, b, ha, hb, hov, hceq⟩)
    · obtain ⟨a, b, ha, hb, hov, hceq⟩ := mkMW_some hmk
      exact Or.inr (Or.inr (Or.inl ⟨ai, bi, a, b, ha, hb, hov, hceq⟩))
    · obtain ⟨a, b, ha, hb, hov, hceq⟩ := mkPM_some hmk
      exact Or.inr (Or.inr (Or.inr (Or.inl ⟨ai, bi, a, b, ha, hb, hov, hceq⟩)))
    · obtain ⟨a, b, ha, hb, hov, hceq⟩ := mkPT_some hmk
      exact Or.inr (Or.inr (Or.inr (Or.inr ⟨ai, bi, a, b, ha, hb, hov, hceq⟩)))
  · rintro (⟨ai, bi, a, b, hlt, ha, hb, hov, rfl⟩ | ⟨ai, bi, a, b, ha, hb, hov, rfl⟩ |
      ⟨ai, bi, a, b, ha, hb, hov, rfl⟩ | ⟨ai, bi, a, b, ha, hb, hov, rfl⟩ |
      ⟨ai, bi, a, b, ha, hb, hov, rfl⟩)
    · exact Or.inl (Or.inl (Or.inl (Or.inl ⟨ai, bi, hlt,
        (List.getElem?_eq_some.mp hb).1, mkMM_eq_some ha hb hov⟩)))
    · exact Or.inl (Or.inl (Or.inl (Or.inr ⟨ai, bi, (List.getElem?_eq_some.mp ha).1,
        (List.getElem?_eq_some.mp hb).1, mkMT_eq_some ha hb hov⟩)))
    · exact Or.inl (Or.inl (Or.inr ⟨ai, bi, (List.getElem?_eq_some.mp ha).1,
        (List.getElem?_eq_some.mp hb).1, mkMW_eq_some ha hb hov⟩))
    · exact Or.inl (Or.inr ⟨ai, bi, (List.getElem?_eq_some.mp ha).1,
        (List.getElem?_eq_some.mp hb).1, mkPM_eq_some ha hb hov⟩)
    · exact Or.inr ⟨ai, bi, (List.getElem?_eq_some.mp ha).1,
        (List.getElem?_eq_some.mp hb).1, mkPT_eq_some ha hb hov⟩

/-- Witness for `c7_gather_contacts_spec`: a mobile overlapping a wall
yields exactly one contact, carrying the `rect_displacement` MTV; the
membership characterization holds at that contact. -/
def c7_wall : Wall := { rect := { x := 8, y := -2, w := 10, h := 30 } }

/-- The single contact gathered in the C7 witness scenario. -/
def c7_contact : Contact :=
  { a := ColliderID.Mobile 0, b := ColliderID.Wall 0, mtv := (2, 0) }

/-- Witness for `c7_gather_contacts_spec` at a concrete one-mobile, one-wall
scene. -/
theorem c7_gather_contacts_spec_witness :
    gather_contacts [] [c5_mobile] [c7_wall] [] [] = [c7_contact] ∧
    (c7_contact ∈ gathered [] [c5_mobile] [c7_wall] [] ↔
      (∃ ai bi a b, ai < bi ∧ [c5_mobile][ai]? = some a ∧ [c5_mobile][bi]? = some b ∧
          rects_overlap a.collider.rect b.collider.rect = true ∧
          c7_contact = { a := ColliderID.Mobile ai, b := ColliderID.Mobile bi,
                         mtv := (0, 0) }) ∨
       (∃ ai bi a b, [c5_mobile][ai]? = some a ∧
          ([] : List (Entity Terrain))[bi]? = some b ∧
          rects_overlap a.collider.rect b.collider.rect = true ∧
          c7_contact = { a := ColliderID.Mobile ai, b := ColliderID.Terrain bi,
                         mtv := (0, 0) }) ∨
       (∃ ai bi a b, [c5_mobile][ai]? = some a ∧ [c7_wall][bi]? = some b ∧
          rects_overlap a.collider.rect b.rect = true ∧
          c7_contact = { a := ColliderID.Mobile ai, b := ColliderID.Wall bi,
                         mtv := match rect_displacement a.collider.rect b.rect with
                                | some (x, y) => (x, y)
                                | none => (0, 0) }) ∨
       (∃ ai bi a b, ([] : List Projectile)[ai]? = some a ∧
          [c5_mobile][bi]? = some b ∧
          rects_overlap a.rect b.collider.rect = true ∧
          c7_contact = { a := ColliderID.Projectile ai, b := ColliderID.Mobile bi,
                         mtv := (0, 0) }) ∨
       (∃ ai bi a b, ([] : List Projectile)[ai]? = some a ∧
          ([] : List (Entity Terrain))[bi]? = some b ∧
          rects_overlap a.rect b.collider.rect = true ∧
          c7_contact = { a := ColliderID.Projectile ai, b := ColliderID.Terrain bi,
                         mtv := (0, 0) })) := by
  constructor
  · have h := (c7_gather_contacts_spec [] [c5_mobile] [c7_wall] [] []).1
    rw [h]
    decide
  · exact (c7_gather_contacts_spec [] [c5_mobile] [c7_wall] [] []).2.2 c7_contact
